import Mathlib
/-!
Verification development for the `pypersonnelloc` personnel-localization
service.  The definitions below are a shallow embedding of
`pypersonnelloc/algorithm/RAKF1D.py` (the scalar robust adaptive Kalman
filter) and of the filter-construction part of
`pypersonnelloc/algorithm/RAKFLocalization.py` (the 3-axis coordinator).

Numbers.  The Python code computes on IEEE doubles; every division that can
receive a zero divisor is performed on numpy scalars or arrays, which do not
raise but produce `inf`, `-inf` or `nan`.  We model values by `PyF`:
rationals extended with the two infinities and NaN, with IEEE-style
propagation rules (exact rational arithmetic stands in for binary rounding).

Square roots.  `RAKF1D.__init__` receives `measurement_error` (a variance R)
and stores only `measurement_standard_deviation = sqrt(R)`.  Since square
roots leave ℚ, the embedding passes the standard deviation itself to the
constructor: a source call with `measurement_error = R` corresponds to a
call here with the σ satisfying `σ² = R` (σ ≥ 0); this recoding is injective
on the admissible (nonnegative) entries.
-/

/-- Extended rationals modelling numpy double scalars: a finite value,
the two infinities, or NaN. -/
inductive PyF where
  | fin (q : ℚ)
  | pinf
  | ninf
  | nan
deriving DecidableEq, Repr

namespace PyF

/-- Addition with IEEE-style propagation (`inf + -inf = nan`, NaN absorbs). -/
def add : PyF → PyF → PyF
  | .fin a, .fin b => .fin (a + b)
  | .fin _, .pinf => .pinf
  | .pinf, .fin _ => .pinf
  | .pinf, .pinf => .pinf
  | .fin _, .ninf => .ninf
  | .ninf, .fin _ => .ninf
  | .ninf, .ninf => .ninf
  | .pinf, .ninf => .nan
  | .ninf, .pinf => .nan
  | .nan, _ => .nan
  | _, .nan => .nan

/-- Subtraction with IEEE-style propagation. -/
def sub : PyF → PyF → PyF
  | .fin a, .fin b => .fin (a - b)
  | .fin _, .pinf => .ninf
  | .fin _, .ninf => .pinf
  | .pinf, .fin _ => .pinf
  | .ninf, .fin _ => .ninf
  | .pinf, .pinf => .nan
  | .ninf, .ninf => .nan
  | .pinf, .ninf => .pinf
  | .ninf, .pinf => .ninf
  | .nan, _ => .nan
  | _, .nan => .nan

/-- Multiplication with IEEE-style propagation (`inf * 0 = nan`). -/
def mul : PyF → PyF → PyF
  | .fin a, .fin b => .fin (a * b)
  | .fin a, .pinf => if 0 < a then .pinf else if a < 0 then .ninf else .nan
  | .fin a, .ninf => if 0 < a then .ninf else if a < 0 then .pinf else .nan
  | .pinf, .fin b => if 0 < b then .pinf else if b < 0 then .ninf else .nan
  | .ninf, .fin b => if 0 < b then .ninf else if b < 0 then .pinf else .nan
  | .pinf, .pinf => .pinf
  | .pinf, .ninf => .ninf
  | .ninf, .pinf => .ninf
  | .ninf, .ninf => .pinf
  | .nan, _ => .nan
  | _, .nan => .nan

/-- Division with numpy semantics: a finite value divided by zero gives a
signed infinity (`0/0 = nan`), `x/inf = 0`, `inf/inf = nan`. -/
def div : PyF → PyF → PyF
  | .fin a, .fin b =>
      if b = 0 then (if a = 0 then .nan else if 0 < a then .pinf else .ninf)
      else .fin (a / b)
  | .fin _, .pinf => .fin 0
  | .fin _, .ninf => .fin 0
  | .pinf, .fin b => if b < 0 then .ninf else .pinf
  | .ninf, .fin b => if b < 0 then .pinf else .ninf
  | .pinf, .pinf => .nan
  | .pinf, .ninf => .nan
  | .ninf, .pinf => .nan
  | .ninf, .ninf => .nan
  | .nan, _ => .nan
  | _, .nan => .nan

/-- Negation. -/
def neg : PyF → PyF
  | .fin a => .fin (-a)
  | .pinf => .ninf
  | .ninf => .pinf
  | .nan => .nan

/-- Absolute value (Python `abs`). -/
def abs : PyF → PyF
  | .fin a => .fin |a|
  | .pinf => .pinf
  | .ninf => .pinf
  | .nan => .nan

/-- IEEE comparison `<=`: any comparison with NaN is false. -/
def le : PyF → PyF → Bool
  | .nan, _ => false
  | _, .nan => false
  | .fin a, .fin b => decide (a ≤ b)
  | .fin _, .pinf => true
  | .fin _, .ninf => false
  | .pinf, .fin _ => false
  | .ninf, .fin _ => true
  | .pinf, .pinf => true
  | .ninf, .ninf => true
  | .ninf, .pinf => true
  | .pinf, .ninf => false

/-- IEEE comparison `<`: any comparison with NaN is false. -/
def lt : PyF → PyF → Bool
  | .nan, _ => false
  | _, .nan => false
  | .fin a, .fin b => decide (a < b)
  | .fin _, .pinf => true
  | .fin _, .ninf => false
  | .pinf, .fin _ => false
  | .ninf, .fin _ => true
  | .pinf, .pinf => false
  | .ninf, .ninf => false
  | .ninf, .pinf => true
  | .pinf, .ninf => false

/-- A value is finite when it is a rational (not an infinity, not NaN). -/
def isFinite : PyF → Bool
  | .fin _ => true
  | _ => false

/-- The rational carried by a finite value (0 on non-finite values; only
used under an `isFinite` guard). -/
def toQ : PyF → ℚ
  | .fin q => q
  | _ => 0

instance : Add PyF := ⟨add⟩

instance : Sub PyF := ⟨sub⟩

instance : Mul PyF := ⟨mul⟩

instance : Div PyF := ⟨div⟩

instance : Neg PyF := ⟨neg⟩

end PyF

/-!
List helper mirroring numpy's `np.roll(buf, -1)` followed by
`buf[n - 1] = v`: a cyclic left shift whose (now duplicated) last cell is
overwritten, i.e. drop the head and append the new value.
-/
/-- Shift a ring buffer left by one and write `v` into the last slot. -/
def rollSet (l : List PyF) (v : PyF) : List PyF :=
  if l.isEmpty then l else l.tail ++ [v]

/-!
Exact weighted least squares, mirroring `statsmodels.api.WLS(y, X, w).fit()`
followed by `predict(last row of X)`.  statsmodels whitens rows by `sqrt w`
and solves by Moore-Penrose pseudoinverse, so the fitted coefficient vector
is `β = (XᵀWX)⁺ XᵀW y` and singular normal equations do not raise.  On the
single-column design (`position_only` model) this collapses to a scalar; for
the three-column design (`uwb_imu` model) we compute the pseudoinverse of
the 3×3 normal matrix exactly with the Faddeev-LeVerrier coefficients.
-/
/-- WLS fit-and-predict for a single-column design: response `meas`,
design column `pos`, weights `w`; predicts at the last entry of `pos`.
When the (scalar) normal equation is singular the whitened design is the
zero vector and the pseudoinverse solution is `β = 0`. -/
def wlsPosOnlyQ (meas pos w : List ℚ) : ℚ :=
  let d := (List.zip w pos).foldl (fun acc2 p => acc2 + p.1 * (p.2 * p.2)) 0
  if d = 0 then 0
  else ((List.zip w (List.zip pos meas)).foldl
          (fun acc2 p => acc2 + p.1 * (p.2.1 * p.2.2)) 0) / d * (pos.getLast?.getD 0)

/-- Exact 3×3 rational matrices. -/
structure Mat3 where
  a11 : ℚ
  a12 : ℚ
  a13 : ℚ
  a21 : ℚ
  a22 : ℚ
  a23 : ℚ
  a31 : ℚ
  a32 : ℚ
  a33 : ℚ
deriving DecidableEq, Repr

/-- Rational 3-vectors. -/
abbrev Vec3Q := ℚ × ℚ × ℚ

/-- Matrix sum. -/
def mat3Add (x y : Mat3) : Mat3 :=
  ⟨x.a11 + y.a11, x.a12 + y.a12, x.a13 + y.a13,
   x.a21 + y.a21, x.a22 + y.a22, x.a23 + y.a23,
   x.a31 + y.a31, x.a32 + y.a32, x.a33 + y.a33⟩

/-- Matrix difference. -/
def mat3Sub (x y : Mat3) : Mat3 :=
  ⟨x.a11 - y.a11, x.a12 - y.a12, x.a13 - y.a13,
   x.a21 - y.a21, x.a22 - y.a22, x.a23 - y.a23,
   x.a31 - y.a31, x.a32 - y.a32, x.a33 - y.a33⟩

/-- Scalar multiple of a matrix. -/
def mat3SMul (c : ℚ) (x : Mat3) : Mat3 :=
  ⟨c * x.a11, c * x.a12, c * x.a13,
   c * x.a21, c * x.a22, c * x.a23,
   c * x.a31, c * x.a32, c * x.a33⟩

/-- Matrix product. -/
def mat3Mul (x y : Mat3) : Mat3 :=
  ⟨x.a11 * y.a11 + x.a12 * y.a21 + x.a13 * y.a31,
   x.a11 * y.a12 + x.a12 * y.a22 + x.a13 * y.a32,
   x.a11 * y.a13 + x.a12 * y.a23 + x.a13 * y.a33,
   x.a21 * y.a11 + x.a22 * y.a21 + x.a23 * y.a31,
   x.a21 * y.a12 + x.a22 * y.a22 + x.a23 * y.a32,
   x.a21 * y.a13 + x.a22 * y.a23 + x.a23 * y.a33,
   x.a31 * y.a11 + x.a32 * y.a21 + x.a33 * y.a31,
   x.a31 * y.a12 + x.a32 * y.a22 + x.a33 * y.a32,
   x.a31 * y.a13 + x.a32 * y.a23 + x.a33 * y.a33⟩

/-- Transpose. -/
def mat3T (x : Mat3) : Mat3 :=
  ⟨x.a11, x.a21, x.a31, x.a12, x.a22, x.a32, x.a13, x.a23, x.a33⟩

/-- Trace. -/
def mat3Trace (x : Mat3) : ℚ := x.a11 + x.a22 + x.a33

/-- Identity matrix. -/
def mat3Id : Mat3 := ⟨1, 0, 0, 0, 1, 0, 0, 0, 1⟩

/-- Zero matrix. -/
def mat3Zero : Mat3 := ⟨0, 0, 0, 0, 0, 0, 0, 0, 0⟩

/-- Matrix-vector product. -/
def mat3MulVec (x : Mat3) (v : Vec3Q) : Vec3Q :=
  (x.a11 * v.1 + x.a12 * v.2.1 + x.a13 * v.2.2,
   x.a21 * v.1 + x.a22 * v.2.1 + x.a23 * v.2.2,
   x.a31 * v.1 + x.a32 * v.2.1 + x.a33 * v.2.2)

/-- Outer product `r rᵀ` of a 3-vector with itself. -/
def outer3 (r : Vec3Q) : Mat3 :=
  ⟨r.1 * r.1, r.1 * r.2.1, r.1 * r.2.2,
   r.2.1 * r.1, r.2.1 * r.2.1, r.2.1 * r.2.2,
   r.2.2 * r.1, r.2.2 * r.2.1, r.2.2 * r.2.2⟩

/-- Dot product of 3-vectors. -/
def dot3 (x y : Vec3Q) : ℚ := x.1 * y.1 + x.2.1 * y.2.1 + x.2.2 * y.2.2

/-- Vector sum. -/
def vec3Add (x y : Vec3Q) : Vec3Q := (x.1 + y.1, x.2.1 + y.2.1, x.2.2 + y.2.2)

/-- Scalar multiple of a 3-vector. -/
def vec3SMul (c : ℚ) (x : Vec3Q) : Vec3Q := (c * x.1, c * x.2.1, c * x.2.2)

/-- Exact Moore-Penrose pseudoinverse of a 3×3 rational matrix, via the
Faddeev-LeVerrier characteristic coefficients of `B = A Aᵀ` (Decell's
formula); the rank is read off as the largest index with a nonzero
coefficient. -/
def pinv3 (A : Mat3) : Mat3 :=
  let B := mat3Mul A (mat3T A)
  let c1 := mat3Trace B
  let m2 := mat3Mul B (mat3Sub B (mat3SMul c1 mat3Id))
  let c2 := mat3Trace m2 / 2
  let m3 := mat3Mul B (mat3Sub m2 (mat3SMul c2 mat3Id))
  let c3 := mat3Trace m3 / 3
  if c3 ≠ 0 then
    mat3SMul (1 / c3)
      (mat3Mul (mat3T A)
        (mat3Sub (mat3Sub (mat3Mul B B) (mat3SMul c1 B)) (mat3SMul c2 mat3Id)))
  else if c2 ≠ 0 then
    mat3SMul (1 / c2) (mat3Mul (mat3T A) (mat3Sub B (mat3SMul c1 mat3Id)))
  else if c1 ≠ 0 then
    mat3SMul (1 / c1) (mat3T A)
  else mat3Zero

/-- WLS fit-and-predict for the three-column design `[pos | vel | acc]`:
`β = (XᵀWX)⁺ XᵀW y`, predicted at the last row of the design. -/
def wlsUwbImuQ (meas pos vel acc w : List ℚ) : ℚ :=
  let rows := List.zip pos (List.zip vel acc)
  let m := (List.zip w rows).foldl
    (fun acc2 p => mat3Add acc2 (mat3SMul p.1 (outer3 (p.2.1, p.2.2.1, p.2.2.2))))
    mat3Zero
  let cv := (List.zip w (List.zip meas rows)).foldl
    (fun acc2 p =>
      vec3Add acc2 (vec3SMul (p.1 * p.2.1) (p.2.2.1, p.2.2.2.1, p.2.2.2.2)))
    ((0 : ℚ), (0 : ℚ), (0 : ℚ))
  let beta := mat3MulVec (pinv3 m) cv
  dot3 (pos.getLast?.getD 0, vel.getLast?.getD 0, acc.getLast?.getD 0) beta

/-!
Data model of one scalar filter (`class RAKF1D`).  The immutable
configuration (constructor arguments kept on `self`) is split from the
mutable per-step state.  `model_type` is the string compared against
`'uwb_imu'` in the source; any other string takes the position-only branch.
-/
/-- Motion-model selector: the source compares `model_type == 'uwb_imu'`;
every other string behaves as the position-only model. -/
inductive ModelType where
  | uwb_imu
  | position_only
deriving DecidableEq, Repr

/-- Immutable configuration of one `RAKF1D` instance (the constructor
arguments the algorithm reads back). -/
structure Rakf1DCfg where
  system_model : PyF
  system_model_error : PyF
  measurement_standard_deviation : PyF
  residual_threshold : PyF
  adaptive_threshold : PyF
  gamma : PyF
  estimator_parameter_count : Nat
  model_type : ModelType
deriving DecidableEq, Repr

/-- Mutable state of one `RAKF1D` instance.  The first eight fields drive
the recursion; the trailing `Option PyF` fields mirror the diagnostic
attributes the source assigns each step (`None` until first written). -/
structure Rakf1DState where
  time_previous : PyF
  state_model : PyF
  state_error_variance : PyF
  measurement_buffer : List PyF
  position_buffer : List PyF
  residual_weight_buffer : List PyF
  velocity_buffer : Option (List PyF)
  acceleration_buffer : Option (List PyF)
  state_model_prediction : Option PyF
  state_error_variance_prediction : Option PyF
  measurement_prediction : Option PyF
  residual_measurement : Option PyF
  residual_measurement_dash : Option PyF
  residual_weight : Option PyF
  state_estimation : Option PyF
  delta_state_estimate : Option PyF
  adaptive_factor : Option PyF
  gain : Option PyF
deriving DecidableEq, Repr

namespace RAKF1D

/-- Time delta: `0.0` while `time_previous < 0` (the `-1.0` sentinel),
else `(timestamp_ms - time_previous) / 1000` (ms to s). -/
def timedeltaOf (time_previous timestamp_ms : PyF) : PyF :=
  if PyF.lt time_previous (PyF.fin 0) then PyF.fin 0
  else (timestamp_ms - time_previous) / PyF.fin 1000

/-- Equation 29: `x⁻ = A·x + v·Δt + a·Δt²·0.5`, with the source's
association `(A*x) + (v*Δt) + (a*(Δt**2)*0.5)`. -/
def smpOf (system_model state_model velocity acceleration timedelta : PyF) : PyF :=
  system_model * state_model + velocity * timedelta
    + acceleration * (timedelta * timedelta) * PyF.fin (1 / 2)

/-- Equation 30: `P⁻ = A·P·A + Q`. -/
def sevpOf (system_model state_error_variance system_model_error : PyF) : PyF :=
  system_model * state_error_variance * system_model + system_model_error

/-- Equations 31-32: nominal information weight `1/σ` for inliers, the
attenuated `(c/(r̃·2·γ))·(1/σ)` otherwise. -/
def residualWeightOf (cfg : Rakf1DCfg) (residual_measurement_dash : PyF) : PyF :=
  if PyF.le residual_measurement_dash cfg.residual_threshold then
    PyF.fin 1 / cfg.measurement_standard_deviation
  else
    (cfg.residual_threshold / (residual_measurement_dash * PyF.fin 2 * cfg.gamma))
      * (PyF.fin 1 / cfg.measurement_standard_deviation)

/-- Equation 38: the adaptive factor as a function of the (signed)
normalized innovation δ. -/
def adaptiveFactorOf (cfg : Rakf1DCfg) (delta : PyF) : PyF :=
  if PyF.lt delta cfg.adaptive_threshold then PyF.fin 1
  else if PyF.lt cfg.adaptive_threshold delta && PyF.lt delta cfg.residual_threshold then
    cfg.adaptive_threshold / delta * cfg.gamma
  else delta * cfg.gamma

/-- Roll of the velocity/acceleration buffers: only performed under the
`uwb_imu` model (the source leaves them `None` otherwise). -/
def imuBufOf (cfg : Rakf1DCfg) (buf : Option (List PyF)) (v : PyF) : Option (List PyF) :=
  match cfg.model_type with
  | ModelType.uwb_imu => buf.map (fun b => rollSet b v)
  | ModelType.position_only => buf

/-- Predicate: every entry of the list is finite. -/
def finListB (l : List PyF) : Bool := l.all PyF.isFinite

/-- Predicate: every entry is finite and nonnegative (a usable WLS
weight; statsmodels whitens by `sqrt w`, so a negative or non-finite
weight contaminates the fit with NaN). -/
def nonnegListB (l : List PyF) : Bool :=
  l.all (fun x => PyF.isFinite x && PyF.le (PyF.fin 0) x)

/-- Equation 37: the sliding-window WLS fit and prediction
(`sm.WLS(...).fit()` + `predict` at the newest row).  On regular data the
result is the exact rational WLS prediction; data containing non-finite
values (or negative weights, which statsmodels turns into NaN when
whitening) yields NaN. -/
def stateEstimationOf (cfg : Rakf1DCfg) (measB posB : List PyF)
    (velB accB : Option (List PyF)) (wB : List PyF) : PyF :=
  match cfg.model_type with
  | ModelType.uwb_imu =>
    match velB, accB with
    | some vB, some aB =>
      if finListB measB && finListB posB && finListB vB && finListB aB
          && nonnegListB wB then
        PyF.fin (wlsUwbImuQ (measB.map PyF.toQ) (posB.map PyF.toQ)
          (vB.map PyF.toQ) (aB.map PyF.toQ) (wB.map PyF.toQ))
      else PyF.nan
    | _, _ => PyF.nan
  | ModelType.position_only =>
      if finListB measB && finListB posB && nonnegListB wB then
        PyF.fin (wlsPosOnlyQ (measB.map PyF.toQ) (posB.map PyF.toQ)
          (wB.map PyF.toQ))
      else PyF.nan

/-- One call of `RAKF1D.run`, following the source line by line.  Returns
the updated object state together with `float(self.state_model)`, the
value the method returns. -/
def run (cfg : Rakf1DCfg) (s : Rakf1DState)
    (current_measurement timestamp_ms velocity acceleration : PyF) :
    Rakf1DState × PyF :=
  let timedelta := timedeltaOf s.time_previous timestamp_ms
  let state_model_prediction :=
    smpOf cfg.system_model s.state_model velocity acceleration timedelta
  let state_error_variance_prediction :=
    sevpOf cfg.system_model s.state_error_variance cfg.system_model_error
  -- state_measurement_relation (C) is the literal 1
  let measurement_prediction := PyF.fin 1 * state_model_prediction
  let residual_measurement := current_measurement - measurement_prediction
  let residual_measurement_dash :=
    PyF.abs (residual_measurement / cfg.measurement_standard_deviation)
  let residual_weight := residualWeightOf cfg residual_measurement_dash
  let position_buffer := rollSet s.position_buffer s.state_model
  let measurement_buffer := rollSet s.measurement_buffer current_measurement
  let velocity_buffer := imuBufOf cfg s.velocity_buffer velocity
  let acceleration_buffer := imuBufOf cfg s.acceleration_buffer acceleration
  let state_estimation := stateEstimationOf cfg measurement_buffer
    position_buffer velocity_buffer acceleration_buffer s.residual_weight_buffer
  let delta_state_estimate :=
    (state_estimation - state_model_prediction) / state_error_variance_prediction
  let adaptive_factor := adaptiveFactorOf cfg delta_state_estimate
  let reciprocal_adaptive_factor := PyF.fin 1 / adaptive_factor
  let reciprocal_residual_weight := PyF.fin 1 / residual_weight
  let numerator :=
    reciprocal_adaptive_factor * state_error_variance_prediction * PyF.fin 1
  let denominator :=
    reciprocal_adaptive_factor * PyF.fin 1 * state_error_variance_prediction
      * PyF.fin 1 + reciprocal_residual_weight
  let gain := numerator / denominator
  let state_model := state_model_prediction + gain * residual_measurement
  let state_error_variance :=
    (PyF.fin 1 - gain * PyF.fin 1) * state_error_variance_prediction
  let residual_weight_buffer := rollSet s.residual_weight_buffer residual_weight
  ({ time_previous := timestamp_ms
     state_model := state_model
     state_error_variance := state_error_variance
     measurement_buffer := measurement_buffer
     position_buffer := position_buffer
     residual_weight_buffer := residual_weight_buffer
     velocity_buffer := velocity_buffer
     acceleration_buffer := acceleration_buffer
     state_model_prediction := some state_model_prediction
     state_error_variance_prediction := some state_error_variance_prediction
     measurement_prediction := some measurement_prediction
     residual_measurement := some residual_measurement
     residual_measurement_dash := some residual_measurement_dash
     residual_weight := some residual_weight
     state_estimation := some state_estimation
     delta_state_estimate := some delta_state_estimate
     adaptive_factor := some adaptive_factor
     gain := some gain }, state_model)

/-- The `RAKF1D` constructor.  The source receives `measurement_error` and
stores `measurement_standard_deviation = np.sqrt(measurement_error)`; since
the square root leaves ℚ this embedding takes the standard deviation
directly (see the file header).  Buffers are zero-filled
(`residual_weight_buffer` one-filled) at the configured length, and the
velocity/acceleration buffers exist only under `uwb_imu`. -/
def init (initial_state system_model system_model_error
    measurement_standard_deviation state_error_variance residual_threshold
    adaptive_threshold : PyF) (estimator_parameter_count : Nat)
    (gamma : PyF) (model_type : ModelType) : Rakf1DCfg × Rakf1DState :=
  (⟨system_model, system_model_error, measurement_standard_deviation,
    residual_threshold, adaptive_threshold, gamma,
    estimator_parameter_count, model_type⟩,
   { time_previous := PyF.fin (-1)
     state_model := initial_state
     state_error_variance := state_error_variance
     measurement_buffer := List.replicate estimator_parameter_count (PyF.fin 0)
     position_buffer := List.replicate estimator_parameter_count (PyF.fin 0)
     residual_weight_buffer := List.replicate estimator_parameter_count (PyF.fin 1)
     velocity_buffer :=
       match model_type with
       | ModelType.uwb_imu =>
           some (List.replicate estimator_parameter_count (PyF.fin 0))
       | ModelType.position_only => none
     acceleration_buffer :=
       match model_type with
       | ModelType.uwb_imu =>
           some (List.replicate estimator_parameter_count (PyF.fin 0))
       | ModelType.position_only => none
     state_model_prediction := none
     state_error_variance_prediction := none
     measurement_prediction := none
     residual_measurement := none
     residual_measurement_dash := none
     residual_weight := none
     state_estimation := none
     delta_state_estimate := none
     adaptive_factor := none
     gain := none })

/-- Modelled from the spec: the flat snapshot record
`{x, P, t_prev, buffers}` produced by `RAKF1D.state_to_dict`.  The method
itself is called from `RAKFLocalization.restore_states_in_db` but its body
is not present in the repository sources (only its call sites are). -/
structure StateDict where
  x : PyF
  p : PyF
  t_prev : PyF
  meas : List PyF
  pos : List PyF
  w : List PyF
  vel : Option (List PyF)
  acc : Option (List PyF)
deriving DecidableEq, Repr

/-- Modelled from the spec: `state_to_dict` returns a flat record of
`{x, P, t_prev, buffers}`. -/
def state_to_dict (s : Rakf1DState) : StateDict :=
  ⟨s.state_model, s.state_error_variance, s.time_previous,
   s.measurement_buffer, s.position_buffer, s.residual_weight_buffer,
   s.velocity_buffer, s.acceleration_buffer⟩

/-- Shape check for a snapshot record: every buffer must have the
configured window length (velocity/acceleration buffers must be present
exactly under `uwb_imu`). -/
def dictShapeOk (cfg : Rakf1DCfg) (d : StateDict) : Bool :=
  d.meas.length == cfg.estimator_parameter_count
    && d.pos.length == cfg.estimator_parameter_count
    && d.w.length == cfg.estimator_parameter_count
    && (match cfg.model_type, d.vel, d.acc with
        | ModelType.uwb_imu, some vB, some aB =>
            vB.length == cfg.estimator_parameter_count
              && aB.length == cfg.estimator_parameter_count
        | ModelType.uwb_imu, _, _ => false
        | ModelType.position_only, _, _ => true)

/-- The state assembled from a snapshot record: the record's mutable
fields, with the diagnostic attributes in their freshly-constructed
(`None`) form. -/
def restoreOf (d : StateDict) : Rakf1DState :=
  { time_previous := d.t_prev
    state_model := d.x
    state_error_variance := d.p
    measurement_buffer := d.meas
    position_buffer := d.pos
    residual_weight_buffer := d.w
    velocity_buffer := d.vel
    acceleration_buffer := d.acc
    state_model_prediction := none
    state_error_variance_prediction := none
    measurement_prediction := none
    residual_measurement := none
    residual_measurement_dash := none
    residual_weight := none
    state_estimation := none
    delta_state_estimate := none
    adaptive_factor := none
    gain := none }

/-- Modelled from the spec: `update_state(record)` replaces all mutable
state atomically; the buffer shapes must match the configured window or
the call fails. -/
def update_state (cfg : Rakf1DCfg) (d : StateDict) : Option Rakf1DState :=
  if dictShapeOk cfg d then some (restoreOf d) else none

/-- A step input: measurement, timestamp, velocity, acceleration. -/
abbrev StepInput := PyF × PyF × PyF × PyF

/-- Run a sequence of steps, collecting the returned estimates and the
final state. -/
def runSeq (cfg : Rakf1DCfg) (s : Rakf1DState) :
    List StepInput → List PyF × Rakf1DState
  | [] => ([], s)
  | m :: ms =>
      let r := run cfg s m.1 m.2.1 m.2.2.1 m.2.2.2
      let rest := runSeq cfg r.1 ms
      (r.2 :: rest.1, rest.2)

end RAKF1D

/-!
The 3-axis coordinator (`class RAKFLocalization`): only the construction of
the per-axis filters is modelled (transports, queues and the key-value
store are external collaborators).  The configuration mirrors the
`algorithm` subtree of one tracker entry; as with `RAKF1D.init`, the
`error.measurement.{x,y,z}` entries are passed as their square roots
`meas_sigma_*` (an injective recoding, since the source immediately takes
`sqrt` of whichever entry it is handed). -/
structure LocalizationCfg where
  track_dimension : Nat
  coefficient_x : PyF
  coefficient_y : PyF
  coefficient_z : PyF
  error_model_x : PyF
  error_model_y : PyF
  error_model_z : PyF
  meas_sigma_x : PyF
  meas_sigma_y : PyF
  meas_sigma_z : PyF
  state_error_variance_x : PyF
  state_error_variance_y : PyF
  state_error_variance_z : PyF
  residual_x : PyF
  residual_y : PyF
  residual_z : PyF
  adaptive_x : PyF
  adaptive_y : PyF
  adaptive_z : PyF
  gamma_x : PyF
  gamma_y : PyF
  gamma_z : PyF
  parameter_count : Nat
  model_type : ModelType
deriving DecidableEq, Repr

/-- Coordinator state: up to three scalar filters. -/
structure RAKFLocalization where
  track_dimension : Nat
  rakf_x : Option (Rakf1DCfg × Rakf1DState)
  rakf_y : Option (Rakf1DCfg × Rakf1DState)
  rakf_z : Option (Rakf1DCfg × Rakf1DState)
deriving DecidableEq, Repr

namespace RAKFLocalization

/-- Filter construction from `RAKFLocalization.__init__`: dimensions above
3 are rejected (`exit(-1)`, modelled as `none`); otherwise one `RAKF1D` per
active axis.  NOTE (faithful to the source): the y and z filters are
constructed from `algorithm["error"]["measurement"]["x"]` — here
`meas_sigma_x` — not from their own axis's entry. -/
def init (c : LocalizationCfg) : Option RAKFLocalization :=
  if c.track_dimension > 3 then none
  else some
    { track_dimension := c.track_dimension
      rakf_x :=
        if c.track_dimension > 0 then
          some (RAKF1D.init (PyF.fin 0) c.coefficient_x c.error_model_x
            c.meas_sigma_x c.state_error_variance_x c.residual_x c.adaptive_x
            c.parameter_count c.gamma_x c.model_type)
        else none
      rakf_y :=
        if c.track_dimension > 1 then
          some (RAKF1D.init (PyF.fin 0) c.coefficient_y c.error_model_y
            c.meas_sigma_x c.state_error_variance_y c.residual_y c.adaptive_y
            c.parameter_count c.gamma_y c.model_type)
        else none
      rakf_z :=
        if c.track_dimension > 2 then
          some (RAKF1D.init (PyF.fin 0) c.coefficient_z c.error_model_z
            c.meas_sigma_x c.state_error_variance_z c.residual_z c.adaptive_z
            c.parameter_count c.gamma_z c.model_type)
        else none }

end RAKFLocalization

namespace RAKF1D

/-!
Proof layer.  First, definitional projection lemmas for `run`; then exact
rational evaluations of each step quantity under finiteness assumptions.
-/
/-- The prediction `x⁻` of one step, as a function of the pre-step state. -/
def smpF (cfg : Rakf1DCfg) (s : Rakf1DState) (v a t : PyF) : PyF :=
  smpOf cfg.system_model s.state_model v a (timedeltaOf s.time_previous t)

/-- The predicted variance `P⁻` of one step. -/
def sevpF (cfg : Rakf1DCfg) (s : Rakf1DState) : PyF :=
  sevpOf cfg.system_model s.state_error_variance cfg.system_model_error

/-- The measurement residual `r` of one step. -/
def rmF (cfg : Rakf1DCfg) (s : Rakf1DState) (z t v a : PyF) : PyF :=
  z - PyF.fin 1 * smpF cfg s v a t

/-- The normalized residual `r̃` of one step. -/
def rmdF (cfg : Rakf1DCfg) (s : Rakf1DState) (z t v a : PyF) : PyF :=
  PyF.abs (rmF cfg s z t v a / cfg.measurement_standard_deviation)

/-- The residual weight `w` of one step. -/
def rwF (cfg : Rakf1DCfg) (s : Rakf1DState) (z t v a : PyF) : PyF :=
  residualWeightOf cfg (rmdF cfg s z t v a)

/-- The WLS auxiliary estimate `x̂` of one step. -/
def seF (cfg : Rakf1DCfg) (s : Rakf1DState) (z v a : PyF) : PyF :=
  stateEstimationOf cfg (rollSet s.measurement_buffer z)
    (rollSet s.position_buffer s.state_model)
    (imuBufOf cfg s.velocity_buffer v) (imuBufOf cfg s.acceleration_buffer a)
    s.residual_weight_buffer

/-- The normalized innovation `δ` of one step. -/
def deltaF (cfg : Rakf1DCfg) (s : Rakf1DState) (z t v a : PyF) : PyF :=
  (seF cfg s z v a - smpF cfg s v a t) / sevpF cfg s

/-- The adaptive factor `α` of one step. -/
def afF (cfg : Rakf1DCfg) (s : Rakf1DState) (z t v a : PyF) : PyF :=
  adaptiveFactorOf cfg (deltaF cfg s z t v a)

/-- The gain `K` of one step (equation 39, with the literal factors
`state_measurement_relation = 1` kept in place). -/
def gainF (cfg : Rakf1DCfg) (s : Rakf1DState) (z t v a : PyF) : PyF :=
  (PyF.fin 1 / afF cfg s z t v a * sevpF cfg s * PyF.fin 1) /
    (PyF.fin 1 / afF cfg s z t v a * PyF.fin 1 * sevpF cfg s * PyF.fin 1
      + PyF.fin 1 / rwF cfg s z t v a)

/-- The updated estimate `x` of one step (equation 40). -/
def smF (cfg : Rakf1DCfg) (s : Rakf1DState) (z t v a : PyF) : PyF :=
  smpF cfg s v a t + gainF cfg s z t v a * rmF cfg s z t v a

/-- The updated variance `P` of one step (equation 42). -/
def sevF (cfg : Rakf1DCfg) (s : Rakf1DState) (z t v a : PyF) : PyF :=
  (PyF.fin 1 - gainF cfg s z t v a * PyF.fin 1) * sevpF cfg s

end RAKF1D

/-!
Rational-level mirrors of the step quantities, used to phrase exact
evaluations of the filter on finite data.
-/
/-- Time delta in ℚ. -/
def timedeltaQ (tp t : ℚ) : ℚ := if tp < 0 then 0 else (t - tp) / 1000

/-- Equation 29 in ℚ. -/
def smpQ (A x v a d : ℚ) : ℚ := A * x + v * d + a * (d * d) * (1 / 2)

/-- Equation 30 in ℚ. -/
def sevpQ (A p q : ℚ) : ℚ := A * p * A + q

/-- Equations 31-32 in ℚ. -/
def rwQ (c g sg rmd : ℚ) : ℚ :=
  if rmd ≤ c then 1 / sg else c / (rmd * 2 * g) * (1 / sg)

/-- Equation 38 in ℚ. -/
def afQ (c0 c g d : ℚ) : ℚ :=
  if d < c0 then 1 else if c0 < d ∧ d < c then c0 / d * g else d * g

/-- Equation 39 in ℚ. -/
def gainQ (af w pm : ℚ) : ℚ :=
  (1 / af * pm * 1) / (1 / af * 1 * pm * 1 + 1 / w)

/-- Bundle of the rational values carried by a finite configuration, state
and input of one step. -/
structure QArgs where
  A : ℚ
  mq : ℚ
  sg : ℚ
  c : ℚ
  c0 : ℚ
  g : ℚ
  x : ℚ
  p : ℚ
  tp : ℚ
  z : ℚ
  t : ℚ
  v : ℚ
  a : ℚ

namespace QArgs

/-- Δt in ℚ. -/
def td (i : QArgs) : ℚ := timedeltaQ i.tp i.t

/-- x⁻ in ℚ. -/
def xm (i : QArgs) : ℚ := smpQ i.A i.x i.v i.a i.td

/-- P⁻ in ℚ. -/
def pm (i : QArgs) : ℚ := sevpQ i.A i.p i.mq

/-- r in ℚ. -/
def r (i : QArgs) : ℚ := i.z - 1 * i.xm

/-- r̃ in ℚ. -/
def rmd (i : QArgs) : ℚ := |i.r / i.sg|

/-- w in ℚ. -/
def w (i : QArgs) : ℚ := rwQ i.c i.g i.sg i.rmd

/-- δ in ℚ, given the WLS estimate `e`. -/
def delta (i : QArgs) (e : ℚ) : ℚ := (e - i.xm) / i.pm

/-- α in ℚ, given the WLS estimate `e`. -/
def alpha (i : QArgs) (e : ℚ) : ℚ := afQ i.c0 i.c i.g (i.delta e)

/-- K in ℚ, given the WLS estimate `e`. -/
def k (i : QArgs) (e : ℚ) : ℚ := gainQ (i.alpha e) i.w i.pm

/-- Updated x in ℚ, given the WLS estimate `e`. -/
def xn (i : QArgs) (e : ℚ) : ℚ := i.xm + i.k e * i.r

/-- Updated P in ℚ, given the WLS estimate `e`. -/
def pn (i : QArgs) (e : ℚ) : ℚ := (1 - i.k e * 1) * i.pm

end QArgs

namespace RAKF1D

/-- Well-formedness of the mutable buffers for a finite-data step: all
entries finite, weights additionally nonnegative, IMU buffers present
exactly when the model requires them. -/
def buffersOk (cfg : Rakf1DCfg) (s : Rakf1DState) : Bool :=
  finListB s.measurement_buffer && finListB s.position_buffer
    && nonnegListB s.residual_weight_buffer
    && (match cfg.model_type, s.velocity_buffer, s.acceleration_buffer with
        | ModelType.uwb_imu, some vB, some aB => finListB vB && finListB aB
        | ModelType.uwb_imu, _, _ => false
        | ModelType.position_only, _, _ => true)

end RAKF1D

/-!
Concrete instances used by witnesses and counterexamples.
-/
/-- A small admissible position-only configuration: A = 1, Q = 1, σ = 1,
c = 3, c₀ = 1/2, γ = 1, window 1. -/
def wCfg : Rakf1DCfg :=
  ⟨PyF.fin 1, PyF.fin 1, PyF.fin 1, PyF.fin 3, PyF.fin (1 / 2), PyF.fin 1, 1,
   ModelType.position_only⟩

/-- A well-formed state for `wCfg`: x = 1, P = 1, untouched timestamp. -/
def wState : Rakf1DState :=
  ⟨PyF.fin (-1), PyF.fin 1, PyF.fin 1, [PyF.fin 0], [PyF.fin 1], [PyF.fin 1],
   none, none, none, none, none, none, none, none, none, none, none, none⟩

/-- The rational shadow of `wCfg`/`wState` with measurement 10 at t = 0. -/
def wArgs : QArgs := ⟨1, 1, 1, 3, 1 / 2, 1, 1, 1, -1, 10, 0, 0, 0⟩

/-- A configuration with A = 0 and Q = 0, so that `P⁻ = 0` and the δ
computation divides by zero. -/
def zCfg : Rakf1DCfg :=
  ⟨PyF.fin 0, PyF.fin 0, PyF.fin 1, PyF.fin 3, PyF.fin (1 / 2), PyF.fin 1, 1,
   ModelType.position_only⟩

/-- Configuration identical to `wCfg` but with `residual_threshold = +inf`. -/
def iCfg : Rakf1DCfg :=
  ⟨PyF.fin 1, PyF.fin 1, PyF.fin 1, PyF.pinf, PyF.fin (1 / 2), PyF.fin 1, 1,
   ModelType.position_only⟩

/-- A 3-axis coordinator configuration whose three measurement-error
entries differ (σ of x/y/z measurement error: 1, 2, 3). -/
def c10cfg : LocalizationCfg :=
  { track_dimension := 3
    coefficient_x := PyF.fin 1, coefficient_y := PyF.fin 1
    coefficient_z := PyF.fin 1
    error_model_x := PyF.fin 1, error_model_y := PyF.fin 1
    error_model_z := PyF.fin 1
    meas_sigma_x := PyF.fin 1, meas_sigma_y := PyF.fin 2
    meas_sigma_z := PyF.fin 3
    state_error_variance_x := PyF.fin 1, state_error_variance_y := PyF.fin 1
    state_error_variance_z := PyF.fin 1
    residual_x := PyF.fin 3, residual_y := PyF.fin 3, residual_z := PyF.fin 3
    adaptive_x := PyF.fin (1 / 2), adaptive_y := PyF.fin (1 / 2)
    adaptive_z := PyF.fin (1 / 2)
    gamma_x := PyF.fin 1, gamma_y := PyF.fin 1, gamma_z := PyF.fin 1
    parameter_count := 1
    model_type := ModelType.position_only }

/-- Shadow of `iCfg`/`wState` for the C8 witness: measurement 1 at t = 0
keeps δ = 0 below c₀ = 1/2 (the `c` field is irrelevant: the threshold is
+inf). -/
def i8 : QArgs := ⟨1, 1, 1, 0, 1 / 2, 1, 1, 1, -1, 1, 0, 0, 0⟩

/-!
Theorems: basic lemmas about the value model, exact evaluations of the
step quantities, and the verification of the specification claims.
-/

namespace PyF

@[simp] theorem fin_add_fin (a b : ℚ) : (fin a) + (fin b) = fin (a + b) := rfl

@[simp] theorem fin_sub_fin (a b : ℚ) : (fin a) - (fin b) = fin (a - b) := rfl

@[simp] theorem fin_mul_fin (a b : ℚ) : (fin a) * (fin b) = fin (a * b) := rfl

theorem fin_div_fin (a b : ℚ) (hb : b ≠ 0) : (fin a) / (fin b) = fin (a / b) := by
  show div (fin a) (fin b) = fin (a / b)
  simp [div, hb]

@[simp] theorem abs_fin (a : ℚ) : abs (fin a) = fin |a| := rfl

@[simp] theorem le_fin_fin (a b : ℚ) : le (fin a) (fin b) = decide (a ≤ b) := rfl

@[simp] theorem lt_fin_fin (a b : ℚ) : lt (fin a) (fin b) = decide (a < b) := rfl

@[simp] theorem le_fin_pinf (a : ℚ) : le (fin a) pinf = true := rfl

@[simp] theorem lt_fin_pinf (a : ℚ) : lt (fin a) pinf = true := rfl

@[simp] theorem lt_pinf_fin (a : ℚ) : lt pinf (fin a) = false := rfl

@[simp] theorem lt_ninf_fin (a : ℚ) : lt ninf (fin a) = true := rfl

theorem le_fin_fin_true {a b : ℚ} (h : a ≤ b) : le (fin a) (fin b) = true := by
  simp [h]

theorem le_fin_fin_false {a b : ℚ} (h : ¬ a ≤ b) : le (fin a) (fin b) = false := by
  simp [h]

theorem lt_fin_fin_true {a b : ℚ} (h : a < b) : lt (fin a) (fin b) = true := by
  simp [h]

theorem lt_fin_fin_false {a b : ℚ} (h : ¬ a < b) : lt (fin a) (fin b) = false := by
  simp [h]

@[simp] theorem nan_le (x : PyF) : le nan x = false := by cases x <;> rfl

@[simp] theorem le_nan (x : PyF) : le x nan = false := by cases x <;> rfl

@[simp] theorem nan_lt (x : PyF) : lt nan x = false := by cases x <;> rfl

@[simp] theorem lt_nan (x : PyF) : lt x nan = false := by cases x <;> rfl

@[simp] theorem nan_add (x : PyF) : nan + x = nan := by cases x <;> rfl

@[simp] theorem add_nan (x : PyF) : x + nan = nan := by cases x <;> rfl

@[simp] theorem nan_sub (x : PyF) : nan - x = nan := by cases x <;> rfl

@[simp] theorem sub_nan (x : PyF) : x - nan = nan := by cases x <;> rfl

@[simp] theorem nan_mul (x : PyF) : nan * x = nan := by cases x <;> rfl

@[simp] theorem mul_nan (x : PyF) : x * nan = nan := by cases x <;> rfl

@[simp] theorem nan_div (x : PyF) : nan / x = nan := by cases x <;> rfl

@[simp] theorem div_nan (x : PyF) : x / nan = nan := by cases x <;> rfl

@[simp] theorem abs_nan : abs nan = nan := rfl

@[simp] theorem isFinite_fin (a : ℚ) : isFinite (fin a) = true := rfl

@[simp] theorem toQ_fin (a : ℚ) : toQ (fin a) = a := rfl

theorem fin_div_pinf (a : ℚ) : (fin a) / pinf = fin 0 := rfl

theorem pinf_mul_fin_pos (b : ℚ) (hb : 0 < b) : pinf * (fin b) = pinf := by
  show mul pinf (fin b) = pinf
  simp [mul, hb]

theorem ninf_mul_fin_pos (b : ℚ) (hb : 0 < b) : ninf * (fin b) = ninf := by
  show mul ninf (fin b) = ninf
  have hb2 : ¬ b < 0 := not_lt.mpr hb.le
  simp [mul, hb, hb2]

theorem fin_div_ninf (a : ℚ) : (fin a) / ninf = fin 0 := rfl

theorem fin_div_zero_pos (a : ℚ) (ha : 0 < a) : (fin a) / (fin 0) = pinf := by
  show div (fin a) (fin 0) = pinf
  simp [div, ha, ha.ne.symm]

theorem fin_div_zero_neg (a : ℚ) (ha : a < 0) : (fin a) / (fin 0) = ninf := by
  show div (fin a) (fin 0) = ninf
  have h1 : a ≠ 0 := ha.ne
  have h2 : ¬ 0 < a := not_lt.mpr ha.le
  simp [div, h1, h2]

theorem zero_div_zero : (fin 0) / (fin 0) = nan := by
  show div (fin 0) (fin 0) = nan
  simp [div]

end PyF

namespace RAKF1D

theorem run_time_previous (cfg : Rakf1DCfg) (s : Rakf1DState) (z t v a : PyF) :
    ((run cfg s z t v a).1).time_previous = t := rfl

theorem run_smp (cfg : Rakf1DCfg) (s : Rakf1DState) (z t v a : PyF) :
    ((run cfg s z t v a).1).state_model_prediction = some (smpF cfg s v a t) := rfl

theorem run_sevp (cfg : Rakf1DCfg) (s : Rakf1DState) (z t v a : PyF) :
    ((run cfg s z t v a).1).state_error_variance_prediction =
      some (sevpF cfg s) := rfl

theorem run_mp (cfg : Rakf1DCfg) (s : Rakf1DState) (z t v a : PyF) :
    ((run cfg s z t v a).1).measurement_prediction =
      some (PyF.fin 1 * smpF cfg s v a t) := rfl

theorem run_rm (cfg : Rakf1DCfg) (s : Rakf1DState) (z t v a : PyF) :
    ((run cfg s z t v a).1).residual_measurement = some (rmF cfg s z t v a) := rfl

theorem run_rmd (cfg : Rakf1DCfg) (s : Rakf1DState) (z t v a : PyF) :
    ((run cfg s z t v a).1).residual_measurement_dash =
      some (rmdF cfg s z t v a) := rfl

theorem run_rw (cfg : Rakf1DCfg) (s : Rakf1DState) (z t v a : PyF) :
    ((run cfg s z t v a).1).residual_weight = some (rwF cfg s z t v a) := rfl

theorem run_se (cfg : Rakf1DCfg) (s : Rakf1DState) (z t v a : PyF) :
    ((run cfg s z t v a).1).state_estimation = some (seF cfg s z v a) := rfl

theorem run_delta (cfg : Rakf1DCfg) (s : Rakf1DState) (z t v a : PyF) :
    ((run cfg s z t v a).1).delta_state_estimate =
      some (deltaF cfg s z t v a) := rfl

theorem run_af (cfg : Rakf1DCfg) (s : Rakf1DState) (z t v a : PyF) :
    ((run cfg s z t v a).1).adaptive_factor = some (afF cfg s z t v a) := rfl

theorem run_gain (cfg : Rakf1DCfg) (s : Rakf1DState) (z t v a : PyF) :
    ((run cfg s z t v a).1).gain = some (gainF cfg s z t v a) := rfl

theorem run_sm (cfg : Rakf1DCfg) (s : Rakf1DState) (z t v a : PyF) :
    ((run cfg s z t v a).1).state_model = smF cfg s z t v a := rfl

theorem run_sev (cfg : Rakf1DCfg) (s : Rakf1DState) (z t v a : PyF) :
    ((run cfg s z t v a).1).state_error_variance = sevF cfg s z t v a := rfl

theorem run_ret (cfg : Rakf1DCfg) (s : Rakf1DState) (z t v a : PyF) :
    (run cfg s z t v a).2 = smF cfg s z t v a := rfl

theorem timedelta_fin (tp t : ℚ) :
    timedeltaOf (PyF.fin tp) (PyF.fin t) = PyF.fin (timedeltaQ tp t) := by
  unfold timedeltaOf timedeltaQ
  by_cases h : tp < 0
  · simp [h]
  · rw [PyF.lt_fin_fin_false h, if_neg (by simp), if_neg h, PyF.fin_sub_fin,
      PyF.fin_div_fin _ _ (by norm_num)]

theorem smp_fin (A x v a d : ℚ) :
    smpOf (PyF.fin A) (PyF.fin x) (PyF.fin v) (PyF.fin a) (PyF.fin d) =
      PyF.fin (smpQ A x v a d) := by
  simp [smpOf, smpQ]

theorem sevp_fin (A p q : ℚ) :
    sevpOf (PyF.fin A) (PyF.fin p) (PyF.fin q) = PyF.fin (sevpQ A p q) := by
  simp [sevpOf, sevpQ]

theorem residualWeight_fin (cfg : Rakf1DCfg) (cq gq sq rmd : ℚ)
    (hc : cfg.residual_threshold = PyF.fin cq)
    (hg : cfg.gamma = PyF.fin gq)
    (hs : cfg.measurement_standard_deviation = PyF.fin sq)
    (hcpos : 0 < cq) (hgpos : 0 < gq) (hspos : 0 < sq) :
    residualWeightOf cfg (PyF.fin rmd) = PyF.fin (rwQ cq gq sq rmd) ∧
      0 < rwQ cq gq sq rmd := by
  unfold residualWeightOf rwQ
  rw [hc, hg, hs]
  by_cases h : rmd ≤ cq
  · rw [PyF.le_fin_fin_true h, if_pos rfl, if_pos h,
      PyF.fin_div_fin _ _ hspos.ne.symm]
    exact ⟨rfl, by positivity⟩
  · have hrpos : 0 < rmd := lt_of_lt_of_le hcpos (le_of_not_le h)
    have hden : rmd * 2 * gq ≠ 0 := by positivity
    rw [PyF.le_fin_fin_false h, if_neg (by simp), if_neg h, PyF.fin_mul_fin,
      PyF.fin_mul_fin, PyF.fin_div_fin _ _ hden,
      PyF.fin_div_fin _ _ hspos.ne.symm, PyF.fin_mul_fin]
    refine ⟨rfl, ?_⟩
    positivity

theorem adaptiveFactor_fin (cfg : Rakf1DCfg) (c0q cq gq d : ℚ)
    (hc0 : cfg.adaptive_threshold = PyF.fin c0q)
    (hc : cfg.residual_threshold = PyF.fin cq)
    (hg : cfg.gamma = PyF.fin gq)
    (hc0pos : 0 < c0q) (hgpos : 0 < gq) :
    adaptiveFactorOf cfg (PyF.fin d) = PyF.fin (afQ c0q cq gq d) ∧
      0 < afQ c0q cq gq d := by
  unfold adaptiveFactorOf afQ
  rw [hc0, hc, hg]
  by_cases h1 : d < c0q
  · simp [h1]
  · have hd : 0 < d := lt_of_lt_of_le hc0pos (le_of_not_lt h1)
    by_cases h2 : c0q < d ∧ d < cq
    · rw [PyF.lt_fin_fin_false h1, if_neg (by simp), if_neg h1,
        PyF.lt_fin_fin_true h2.1, PyF.lt_fin_fin_true h2.2, if_pos (by simp),
        if_pos h2, PyF.fin_div_fin _ _ hd.ne.symm, PyF.fin_mul_fin]
      refine ⟨rfl, ?_⟩
      have := h2.1
      positivity
    · have h2b : (PyF.lt (PyF.fin c0q) (PyF.fin d) && PyF.lt (PyF.fin d) (PyF.fin cq)) = false := by
        rcases not_and_or.mp h2 with h | h
        · rw [PyF.lt_fin_fin_false h]
          rfl
        · rw [PyF.lt_fin_fin_false h, Bool.and_false]
      rw [PyF.lt_fin_fin_false h1, if_neg (by simp), if_neg h1, h2b,
        if_neg (by simp), if_neg h2, PyF.fin_mul_fin]
      exact ⟨rfl, by positivity⟩

theorem finListB_tail (l : List PyF) (h : finListB l = true) :
    finListB l.tail = true := by
  rw [finListB, List.all_eq_true] at *
  exact fun x hx => h x (List.mem_of_mem_tail hx)

theorem finListB_rollSet (l : List PyF) (q : ℚ) (h : finListB l = true) :
    finListB (rollSet l (PyF.fin q)) = true := by
  unfold rollSet
  by_cases he : l.isEmpty
  · simpa [he] using h
  · have ht := finListB_tail l h
    simp only [he, if_false, finListB, List.all_append] at *
    simp [ht]

theorem seF_finite (cfg : Rakf1DCfg) (s : Rakf1DState) (xq zq vq aq : ℚ)
    (hx : s.state_model = PyF.fin xq) (hb : buffersOk cfg s = true) :
    ∃ e : ℚ, seF cfg s (PyF.fin zq) (PyF.fin vq) (PyF.fin aq) = PyF.fin e := by
  unfold seF stateEstimationOf imuBufOf
  unfold buffersOk at hb
  rw [hx]
  cases hmt : cfg.model_type with
  | uwb_imu =>
    rw [hmt] at hb
    cases hvb : s.velocity_buffer with
    | none => rw [hvb] at hb; simp at hb
    | some vB =>
      cases hab : s.acceleration_buffer with
      | none => rw [hvb, hab] at hb; simp at hb
      | some aB =>
        rw [hvb, hab] at hb
        simp only [Bool.and_eq_true] at hb
        obtain ⟨⟨⟨hm, hp⟩, hw⟩, hv, ha⟩ := hb
        simp only [Option.map_some']
        rw [if_pos]
        · exact ⟨_, rfl⟩
        · simp [finListB_rollSet _ _ hm, finListB_rollSet _ _ hp,
            finListB_rollSet _ _ hv, finListB_rollSet _ _ ha, hw]
  | position_only =>
    rw [hmt] at hb
    simp only [Bool.and_eq_true, and_true] at hb
    obtain ⟨⟨hm, hp⟩, hw⟩ := hb
    rw [if_pos]
    · exact ⟨_, rfl⟩
    · simp [finListB_rollSet _ _ hm, finListB_rollSet _ _ hp, hw]

theorem smpF_fin (cfg : Rakf1DCfg) (s : Rakf1DState) (i : QArgs)
    (hA : cfg.system_model = PyF.fin i.A)
    (hx : s.state_model = PyF.fin i.x)
    (htp : s.time_previous = PyF.fin i.tp) :
    smpF cfg s (PyF.fin i.v) (PyF.fin i.a) (PyF.fin i.t) = PyF.fin i.xm := by
  rw [smpF, hA, hx, htp, timedelta_fin, smp_fin]
  rfl

theorem sevpF_fin (cfg : Rakf1DCfg) (s : Rakf1DState) (i : QArgs)
    (hA : cfg.system_model = PyF.fin i.A)
    (hQ : cfg.system_model_error = PyF.fin i.mq)
    (hP : s.state_error_variance = PyF.fin i.p) :
    sevpF cfg s = PyF.fin i.pm := by
  rw [sevpF, hA, hQ, hP, sevp_fin]
  rfl

theorem rmF_fin (cfg : Rakf1DCfg) (s : Rakf1DState) (i : QArgs)
    (hA : cfg.system_model = PyF.fin i.A)
    (hx : s.state_model = PyF.fin i.x)
    (htp : s.time_previous = PyF.fin i.tp) :
    rmF cfg s (PyF.fin i.z) (PyF.fin i.t) (PyF.fin i.v) (PyF.fin i.a) =
      PyF.fin i.r := by
  rw [rmF, smpF_fin cfg s i hA hx htp, PyF.fin_mul_fin, PyF.fin_sub_fin]
  rfl

theorem rmdF_fin (cfg : Rakf1DCfg) (s : Rakf1DState) (i : QArgs)
    (hA : cfg.system_model = PyF.fin i.A)
    (hsg : cfg.measurement_standard_deviation = PyF.fin i.sg)
    (hx : s.state_model = PyF.fin i.x)
    (htp : s.time_previous = PyF.fin i.tp)
    (hsgpos : 0 < i.sg) :
    rmdF cfg s (PyF.fin i.z) (PyF.fin i.t) (PyF.fin i.v) (PyF.fin i.a) =
      PyF.fin i.rmd := by
  rw [rmdF, rmF_fin cfg s i hA hx htp, hsg,
    PyF.fin_div_fin _ _ hsgpos.ne.symm, PyF.abs_fin]
  rfl

theorem rwF_fin (cfg : Rakf1DCfg) (s : Rakf1DState) (i : QArgs)
    (hA : cfg.system_model = PyF.fin i.A)
    (hsg : cfg.measurement_standard_deviation = PyF.fin i.sg)
    (hc : cfg.residual_threshold = PyF.fin i.c)
    (hg : cfg.gamma = PyF.fin i.g)
    (hx : s.state_model = PyF.fin i.x)
    (htp : s.time_previous = PyF.fin i.tp)
    (hsgpos : 0 < i.sg) (hcpos : 0 < i.c) (hgpos : 0 < i.g) :
    rwF cfg s (PyF.fin i.z) (PyF.fin i.t) (PyF.fin i.v) (PyF.fin i.a) =
      PyF.fin i.w ∧ 0 < i.w := by
  rw [rwF, rmdF_fin cfg s i hA hsg hx htp hsgpos]
  exact residualWeight_fin cfg i.c i.g i.sg i.rmd hc hg hsg hcpos hgpos hsgpos

theorem deltaF_fin (cfg : Rakf1DCfg) (s : Rakf1DState) (i : QArgs) (e : ℚ)
    (hA : cfg.system_model = PyF.fin i.A)
    (hQ : cfg.system_model_error = PyF.fin i.mq)
    (hx : s.state_model = PyF.fin i.x)
    (hP : s.state_error_variance = PyF.fin i.p)
    (htp : s.time_previous = PyF.fin i.tp)
    (hse : seF cfg s (PyF.fin i.z) (PyF.fin i.v) (PyF.fin i.a) = PyF.fin e)
    (hpm : i.pm ≠ 0) :
    deltaF cfg s (PyF.fin i.z) (PyF.fin i.t) (PyF.fin i.v) (PyF.fin i.a) =
      PyF.fin (i.delta e) := by
  rw [deltaF, hse, smpF_fin cfg s i hA hx htp, sevpF_fin cfg s i hA hQ hP,
    PyF.fin_sub_fin, PyF.fin_div_fin _ _ hpm]
  rfl

theorem afF_fin (cfg : Rakf1DCfg) (s : Rakf1DState) (i : QArgs) (e : ℚ)
    (hA : cfg.system_model = PyF.fin i.A)
    (hQ : cfg.system_model_error = PyF.fin i.mq)
    (hc : cfg.residual_threshold = PyF.fin i.c)
    (hc0 : cfg.adaptive_threshold = PyF.fin i.c0)
    (hg : cfg.gamma = PyF.fin i.g)
    (hx : s.state_model = PyF.fin i.x)
    (hP : s.state_error_variance = PyF.fin i.p)
    (htp : s.time_previous = PyF.fin i.tp)
    (hse : seF cfg s (PyF.fin i.z) (PyF.fin i.v) (PyF.fin i.a) = PyF.fin e)
    (hc0pos : 0 < i.c0) (hgpos : 0 < i.g) (hpm : i.pm ≠ 0) :
    afF cfg s (PyF.fin i.z) (PyF.fin i.t) (PyF.fin i.v) (PyF.fin i.a) =
      PyF.fin (i.alpha e) ∧ 0 < i.alpha e := by
  rw [afF, deltaF_fin cfg s i e hA hQ hx hP htp hse hpm]
  exact adaptiveFactor_fin cfg i.c0 i.c i.g (i.delta e) hc0 hc hg hc0pos hgpos

theorem gainF_fin (cfg : Rakf1DCfg) (s : Rakf1DState) (i : QArgs) (e : ℚ)
    (haf : afF cfg s (PyF.fin i.z) (PyF.fin i.t) (PyF.fin i.v) (PyF.fin i.a) =
      PyF.fin (i.alpha e))
    (hsevp : sevpF cfg s = PyF.fin i.pm)
    (hrw : rwF cfg s (PyF.fin i.z) (PyF.fin i.t) (PyF.fin i.v) (PyF.fin i.a) =
      PyF.fin i.w)
    (hafpos : 0 < i.alpha e) (hwpos : 0 < i.w) (hpm : 0 < i.pm) :
    gainF cfg s (PyF.fin i.z) (PyF.fin i.t) (PyF.fin i.v) (PyF.fin i.a) =
      PyF.fin (i.k e) := by
  have hden : 0 < 1 / i.alpha e * 1 * i.pm * 1 + 1 / i.w := by positivity
  rw [gainF, haf, hsevp, hrw, PyF.fin_div_fin _ _ hafpos.ne.symm,
    PyF.fin_div_fin _ _ hwpos.ne.symm, PyF.fin_mul_fin, PyF.fin_mul_fin,
    PyF.fin_mul_fin, PyF.fin_mul_fin, PyF.fin_mul_fin, PyF.fin_add_fin,
    PyF.fin_div_fin _ _ hden.ne.symm]
  rfl

theorem rwQ_pos (c g sg rmd : ℚ) (hc : 0 < c) (hg : 0 < g) (hsg : 0 < sg) :
    0 < rwQ c g sg rmd := by
  unfold rwQ
  by_cases h : rmd ≤ c
  · simp only [h, if_true]
    positivity
  · have hr : 0 < rmd := lt_trans hc (lt_of_not_le h)
    simp only [h, if_false]
    positivity

theorem afQ_pos (c0 c g d : ℚ) (hc0 : 0 < c0) (hg : 0 < g) :
    0 < afQ c0 c g d := by
  unfold afQ
  by_cases h1 : d < c0
  · simp [h1]
  · have hd : 0 < d := lt_of_lt_of_le hc0 (le_of_not_lt h1)
    by_cases h2 : c0 < d ∧ d < c
    · simp only [h1, if_false, h2, if_true]
      positivity
    · simp only [h1, if_false, h2, if_false]
      positivity

theorem gainQ_bounds (af w pm : ℚ) (haf : 0 < af) (hw : 0 < w)
    (hpm : 0 ≤ pm) : 0 ≤ gainQ af w pm ∧ gainQ af w pm < 1 := by
  unfold gainQ
  have hnum : 0 ≤ 1 / af * pm * 1 := by positivity
  have hden : 0 < 1 / af * 1 * pm * 1 + 1 / w := by positivity
  constructor
  · positivity
  · rw [div_lt_one hden]
    have : 1 / af * pm * 1 = 1 / af * 1 * pm * 1 := by ring
    rw [this]
    have hwinv : 0 < 1 / w := by positivity
    linarith

theorem run_finite_eval (cfg : Rakf1DCfg) (s : Rakf1DState) (i : QArgs)
    (hA : cfg.system_model = PyF.fin i.A)
    (hQ : cfg.system_model_error = PyF.fin i.mq)
    (hsg : cfg.measurement_standard_deviation = PyF.fin i.sg)
    (hc : cfg.residual_threshold = PyF.fin i.c)
    (hc0 : cfg.adaptive_threshold = PyF.fin i.c0)
    (hg : cfg.gamma = PyF.fin i.g)
    (hx : s.state_model = PyF.fin i.x)
    (hP : s.state_error_variance = PyF.fin i.p)
    (htp : s.time_previous = PyF.fin i.tp)
    (hb : buffersOk cfg s = true)
    (hsgpos : 0 < i.sg) (hcpos : 0 < i.c) (hc0pos : 0 < i.c0) (hgpos : 0 < i.g)
    (hpm : 0 < i.pm) :
    ∃ e : ℚ,
      ((run cfg s (PyF.fin i.z) (PyF.fin i.t) (PyF.fin i.v) (PyF.fin i.a)).1).state_estimation
          = some (PyF.fin e)
      ∧ ((run cfg s (PyF.fin i.z) (PyF.fin i.t) (PyF.fin i.v) (PyF.fin i.a)).1).time_previous
          = PyF.fin i.t
      ∧ ((run cfg s (PyF.fin i.z) (PyF.fin i.t) (PyF.fin i.v) (PyF.fin i.a)).1).state_model_prediction
          = some (PyF.fin i.xm)
      ∧ ((run cfg s (PyF.fin i.z) (PyF.fin i.t) (PyF.fin i.v) (PyF.fin i.a)).1).state_error_variance_prediction
          = some (PyF.fin i.pm)
      ∧ ((run cfg s (PyF.fin i.z) (PyF.fin i.t) (PyF.fin i.v) (PyF.fin i.a)).1).residual_measurement
          = some (PyF.fin i.r)
      ∧ ((run cfg s (PyF.fin i.z) (PyF.fin i.t) (PyF.fin i.v) (PyF.fin i.a)).1).residual_measurement_dash
          = some (PyF.fin i.rmd)
      ∧ ((run cfg s (PyF.fin i.z) (PyF.fin i.t) (PyF.fin i.v) (PyF.fin i.a)).1).residual_weight
          = some (PyF.fin i.w)
      ∧ ((run cfg s (PyF.fin i.z) (PyF.fin i.t) (PyF.fin i.v) (PyF.fin i.a)).1).delta_state_estimate
          = some (PyF.fin (i.delta e))
      ∧ ((run cfg s (PyF.fin i.z) (PyF.fin i.t) (PyF.fin i.v) (PyF.fin i.a)).1).adaptive_factor
          = some (PyF.fin (i.alpha e))
      ∧ ((run cfg s (PyF.fin i.z) (PyF.fin i.t) (PyF.fin i.v) (PyF.fin i.a)).1).gain
          = some (PyF.fin (i.k e))
      ∧ ((run cfg s (PyF.fin i.z) (PyF.fin i.t) (PyF.fin i.v) (PyF.fin i.a)).1).state_model
          = PyF.fin (i.xn e)
      ∧ ((run cfg s (PyF.fin i.z) (PyF.fin i.t) (PyF.fin i.v) (PyF.fin i.a)).1).state_error_variance
          = PyF.fin (i.pn e)
      ∧ (run cfg s (PyF.fin i.z) (PyF.fin i.t) (PyF.fin i.v) (PyF.fin i.a)).2
          = PyF.fin (i.xn e) := by
  obtain ⟨e, hse⟩ := seF_finite cfg s i.x i.z i.v i.a hx hb
  obtain ⟨hrwe, hwpos⟩ := rwF_fin cfg s i hA hsg hc hg hx htp hsgpos hcpos hgpos
  obtain ⟨hafe, hafpos⟩ :=
    afF_fin cfg s i e hA hQ hc hc0 hg hx hP htp hse hc0pos hgpos hpm.ne.symm
  have hsevpe := sevpF_fin cfg s i hA hQ hP
  have hsmpe := smpF_fin cfg s i hA hx htp
  have hrme := rmF_fin cfg s i hA hx htp
  have hgaine := gainF_fin cfg s i e hafe hsevpe hrwe hafpos hwpos hpm
  refine ⟨e, ?_, run_time_previous cfg s _ _ _ _, ?_, ?_, ?_, ?_, ?_, ?_, ?_,
    ?_, ?_, ?_, ?_⟩
  · rw [run_se, hse]
  · rw [run_smp, hsmpe]
  · rw [run_sevp, hsevpe]
  · rw [run_rm, hrme]
  · rw [run_rmd, rmdF_fin cfg s i hA hsg hx htp hsgpos]
  · rw [run_rw, hrwe]
  · rw [run_delta, deltaF_fin cfg s i e hA hQ hx hP htp hse hpm.ne.symm]
  · rw [run_af, hafe]
  · rw [run_gain, hgaine]
  · rw [run_sm, smF, hsmpe, hgaine, hrme, PyF.fin_mul_fin, PyF.fin_add_fin]
    rfl
  · rw [run_sev, sevF, hgaine, hsevpe, PyF.fin_mul_fin, PyF.fin_sub_fin,
      PyF.fin_mul_fin]
    rfl
  · rw [run_ret, smF, hsmpe, hgaine, hrme, PyF.fin_mul_fin, PyF.fin_add_fin]
    rfl

end RAKF1D

/-- C5 (amended): a step never fails and never leaves the state untouched —
whatever the inputs (including those that divide by zero inside the step),
`run` returns a value, records `t_prev ← timestamp`, and returns the updated
`state_model`.  There is no `NumericalFailure` path in the code: numpy
divisions produce `inf`/`nan` instead of raising, the WLS solve uses a
pseudoinverse, and the only exception handler calls `exit(-1)`. -/
theorem C5_no_failure_state_updated (cfg : Rakf1DCfg) (s : Rakf1DState)
    (z t v a : PyF) :
    ((RAKF1D.run cfg s z t v a).1).time_previous = t ∧
      (RAKF1D.run cfg s z t v a).2 = ((RAKF1D.run cfg s z t v a).1).state_model := by
  exact ⟨RAKF1D.run_time_previous cfg s z t v a,
    (RAKF1D.run_ret cfg s z t v a).trans (RAKF1D.run_sm cfg s z t v a).symm⟩

/-- C5 counterexample: with A = 0, Q = 0 the step divides by `P⁻ = 0` when
computing δ (the model yields δ = +inf, as numpy does); the claim says such
a step fails with `NumericalFailure` and leaves the filter state unchanged,
but the code completes the step normally: it returns the value 0 and
overwrites `t_prev` (−1 before, 1000 after). -/
theorem C5_counterexample :
    ((RAKF1D.run zCfg wState (PyF.fin 5) (PyF.fin 1000) (PyF.fin 0) (PyF.fin 0)).1).state_error_variance_prediction
        = some (PyF.fin 0)
      ∧ ((RAKF1D.run zCfg wState (PyF.fin 5) (PyF.fin 1000) (PyF.fin 0) (PyF.fin 0)).1).delta_state_estimate
        = some PyF.pinf
      ∧ ((RAKF1D.run zCfg wState (PyF.fin 5) (PyF.fin 1000) (PyF.fin 0) (PyF.fin 0)).1).time_previous
        = PyF.fin 1000
      ∧ wState.time_previous = PyF.fin (-1)
      ∧ (PyF.fin 1000 : PyF) ≠ PyF.fin (-1)
      ∧ (RAKF1D.run zCfg wState (PyF.fin 5) (PyF.fin 1000) (PyF.fin 0) (PyF.fin 0)).2
        = PyF.fin 0 := by
  have hmul : PyF.pinf * PyF.fin 1 = PyF.pinf := PyF.pinf_mul_fin_pos 1 (by norm_num)
  refine ⟨?_, ?_, rfl, rfl, by norm_num, ?_⟩
  · norm_num [RAKF1D.run, RAKF1D.sevpOf, zCfg, wState]
  · norm_num [RAKF1D.run, RAKF1D.timedeltaOf, RAKF1D.smpOf, RAKF1D.sevpOf,
      RAKF1D.residualWeightOf, RAKF1D.adaptiveFactorOf, RAKF1D.imuBufOf,
      RAKF1D.stateEstimationOf, RAKF1D.finListB, RAKF1D.nonnegListB, rollSet,
      wlsPosOnlyQ, zCfg, wState, PyF.lt, PyF.le, PyF.abs, PyF.toQ,
      PyF.isFinite, PyF.fin_div_fin, PyF.fin_div_zero_pos, hmul]
  · norm_num [RAKF1D.run, RAKF1D.timedeltaOf, RAKF1D.smpOf, RAKF1D.sevpOf,
      RAKF1D.residualWeightOf, RAKF1D.adaptiveFactorOf, RAKF1D.imuBufOf,
      RAKF1D.stateEstimationOf, RAKF1D.finListB, RAKF1D.nonnegListB, rollSet,
      wlsPosOnlyQ, zCfg, wState, PyF.lt, PyF.le, PyF.abs, PyF.toQ,
      PyF.isFinite, PyF.fin_div_fin, PyF.fin_div_zero_pos,
      PyF.fin_div_pinf, hmul]

/-- C6 (amended): `run` performs no finiteness validation at all.  A step
whose measurement is NaN executes normally: it records `t_prev ←
timestamp`, stores NaN as the new `state_model`, and returns NaN — there is
no `InvalidInput` failure and the state is updated. -/
theorem C6_no_input_validation (cfg : Rakf1DCfg) (s : Rakf1DState)
    (t v a : PyF) :
    ((RAKF1D.run cfg s PyF.nan t v a).1).time_previous = t
      ∧ ((RAKF1D.run cfg s PyF.nan t v a).1).state_model = PyF.nan
      ∧ (RAKF1D.run cfg s PyF.nan t v a).2 = PyF.nan := by
  have hsm : RAKF1D.smF cfg s PyF.nan t v a = PyF.nan := by
    have hrm : RAKF1D.rmF cfg s PyF.nan t v a = PyF.nan := by
      rw [RAKF1D.rmF, PyF.nan_sub]
    have hrw : RAKF1D.rwF cfg s PyF.nan t v a = PyF.nan := by
      rw [RAKF1D.rwF, RAKF1D.rmdF, hrm, PyF.nan_div, PyF.abs_nan,
        RAKF1D.residualWeightOf]
      rw [if_neg (by rw [PyF.nan_le]; simp)]
      rw [PyF.nan_mul, PyF.nan_mul, PyF.div_nan, PyF.nan_mul]
    have hgain : RAKF1D.gainF cfg s PyF.nan t v a = PyF.nan := by
      rw [RAKF1D.gainF, hrw, PyF.div_nan, PyF.add_nan, PyF.div_nan]
    rw [RAKF1D.smF, hgain, PyF.nan_mul, PyF.add_nan]
  exact ⟨RAKF1D.run_time_previous cfg s PyF.nan t v a,
    (RAKF1D.run_sm cfg s PyF.nan t v a).trans hsm,
    (RAKF1D.run_ret cfg s PyF.nan t v a).trans hsm⟩

/-- C6 counterexample: a step with NaN measurement on a well-formed state
does not fail with `InvalidInput` and does update state: `t_prev` becomes
1000 (it was −1) and the stored estimate becomes NaN. -/
theorem C6_counterexample :
    ((RAKF1D.run wCfg wState PyF.nan (PyF.fin 1000) (PyF.fin 0) (PyF.fin 0)).1).time_previous
        = PyF.fin 1000
      ∧ ((RAKF1D.run wCfg wState PyF.nan (PyF.fin 1000) (PyF.fin 0) (PyF.fin 0)).1).state_model
        = PyF.nan
      ∧ (RAKF1D.run wCfg wState PyF.nan (PyF.fin 1000) (PyF.fin 0) (PyF.fin 0)).2
        = PyF.nan
      ∧ wState.time_previous = PyF.fin (-1)
      ∧ (PyF.fin 1000 : PyF) ≠ PyF.fin (-1) := by
  refine ⟨rfl, ?_, ?_, rfl, by norm_num⟩
  · norm_num [RAKF1D.run, RAKF1D.timedeltaOf, RAKF1D.smpOf, RAKF1D.sevpOf,
      RAKF1D.residualWeightOf, RAKF1D.adaptiveFactorOf, RAKF1D.imuBufOf,
      RAKF1D.stateEstimationOf, RAKF1D.finListB, RAKF1D.nonnegListB, rollSet,
      wlsPosOnlyQ, wCfg, wState, PyF.lt, PyF.le, PyF.abs, PyF.toQ,
      PyF.isFinite, PyF.fin_div_fin]
  · norm_num [RAKF1D.run, RAKF1D.timedeltaOf, RAKF1D.smpOf, RAKF1D.sevpOf,
      RAKF1D.residualWeightOf, RAKF1D.adaptiveFactorOf, RAKF1D.imuBufOf,
      RAKF1D.stateEstimationOf, RAKF1D.finListB, RAKF1D.nonnegListB, rollSet,
      wlsPosOnlyQ, wCfg, wState, PyF.lt, PyF.le, PyF.abs, PyF.toQ,
      PyF.isFinite, PyF.fin_div_fin]

/-- C9 (amended): after any step, `t_prev` equals that step's timestamp —
the code stores it without any ordering check — so `t_prev` is
non-decreasing across two consecutive steps exactly when the supplied
timestamps are. -/
theorem C9_time_previous_follows_timestamps (cfg : Rakf1DCfg)
    (s : Rakf1DState) (z1 t1 v1 a1 z2 t2 v2 a2 : PyF)
    (h : PyF.le t1 t2 = true) :
    PyF.le ((RAKF1D.run cfg s z1 t1 v1 a1).1).time_previous
      ((RAKF1D.run cfg (RAKF1D.run cfg s z1 t1 v1 a1).1 z2 t2 v2 a2).1).time_previous
      = true := by
  rw [RAKF1D.run_time_previous, RAKF1D.run_time_previous]
  exact h

/-- Witness for the amended C9 at concrete ordered timestamps. -/
theorem C9_witness :
    PyF.le (PyF.fin 0) (PyF.fin 1000) = true
      ∧ PyF.le ((RAKF1D.run wCfg wState (PyF.fin 1) (PyF.fin 0) (PyF.fin 0) (PyF.fin 0)).1).time_previous
        ((RAKF1D.run wCfg (RAKF1D.run wCfg wState (PyF.fin 1) (PyF.fin 0) (PyF.fin 0) (PyF.fin 0)).1
          (PyF.fin 1) (PyF.fin 1000) (PyF.fin 0) (PyF.fin 0)).1).time_previous = true := by
  have h : PyF.le (PyF.fin 0) (PyF.fin 1000) = true := by norm_num
  exact ⟨h, C9_time_previous_follows_timestamps wCfg wState (PyF.fin 1)
    (PyF.fin 0) (PyF.fin 0) (PyF.fin 0) (PyF.fin 1) (PyF.fin 1000)
    (PyF.fin 0) (PyF.fin 0) h⟩

/-- C9 counterexample: two successful steps with decreasing timestamps
(1000 then 500) leave `t_prev` = 1000 after the first and `t_prev` = 500
after the second: `t_prev` decreases, so it is not monotonically
non-decreasing across successful steps. -/
theorem C9_counterexample :
    ((RAKF1D.run wCfg wState (PyF.fin 1) (PyF.fin 1000) (PyF.fin 0) (PyF.fin 0)).1).time_previous
        = PyF.fin 1000
      ∧ ((RAKF1D.run wCfg (RAKF1D.run wCfg wState (PyF.fin 1) (PyF.fin 1000) (PyF.fin 0) (PyF.fin 0)).1
          (PyF.fin 1) (PyF.fin 500) (PyF.fin 0) (PyF.fin 0)).1).time_previous = PyF.fin 500
      ∧ PyF.le (PyF.fin 1000) (PyF.fin 500) = false := by
  refine ⟨rfl, rfl, by norm_num⟩

/-- C10: the coordinator builds the y and z filters from the x-axis
measurement-error entry.  With the three entries pairwise different
(σ 1, 2, 3), both constructed filters carry the x entry (1), not their own
(2 resp. 3) — matching the source line passing
`algorithm["error"]["measurement"]["x"]` for all three axes, which the
specification calls a source bug. -/
theorem C10_meas_error_routing :
    ∃ loc py pz, RAKFLocalization.init c10cfg = some loc
      ∧ loc.rakf_y = some py ∧ loc.rakf_z = some pz
      ∧ py.1.measurement_standard_deviation = c10cfg.meas_sigma_x
      ∧ pz.1.measurement_standard_deviation = c10cfg.meas_sigma_x
      ∧ c10cfg.meas_sigma_x ≠ c10cfg.meas_sigma_y
      ∧ c10cfg.meas_sigma_x ≠ c10cfg.meas_sigma_z := by
  refine ⟨_, _, _, rfl, rfl, rfl, rfl, rfl, ?_, ?_⟩ <;>
    norm_num [c10cfg]

/-- C2: on each step the normalized residual is r̃ = |z − x⁻|/σ and the
residual weight is `1/σ` when r̃ ≤ c and `c/(r̃·2·γ·σ)` when r̃ > c (the
code computes `(c/(r̃·2·γ))·(1/σ)`, the same rational value). -/
theorem C2_residual_weight (cfg : Rakf1DCfg) (s : Rakf1DState) (i : QArgs)
    (hA : cfg.system_model = PyF.fin i.A)
    (hsg : cfg.measurement_standard_deviation = PyF.fin i.sg)
    (hc : cfg.residual_threshold = PyF.fin i.c)
    (hg : cfg.gamma = PyF.fin i.g)
    (hx : s.state_model = PyF.fin i.x)
    (htp : s.time_previous = PyF.fin i.tp)
    (hsgpos : 0 < i.sg) (hcpos : 0 < i.c) (hgpos : 0 < i.g) :
    ∃ dt xminus rt : ℚ,
      dt = (if i.tp < 0 then 0 else (i.t - i.tp) / 1000)
      ∧ xminus = i.A * i.x + i.v * dt + i.a * (dt * dt) * (1 / 2)
      ∧ rt = |i.z - xminus| / i.sg
      ∧ ((RAKF1D.run cfg s (PyF.fin i.z) (PyF.fin i.t) (PyF.fin i.v) (PyF.fin i.a)).1).residual_measurement_dash
          = some (PyF.fin rt)
      ∧ ((RAKF1D.run cfg s (PyF.fin i.z) (PyF.fin i.t) (PyF.fin i.v) (PyF.fin i.a)).1).residual_weight
          = some (PyF.fin
              (if rt ≤ i.c then 1 / i.sg else i.c / (rt * 2 * i.g * i.sg))) := by
  refine ⟨i.td, i.xm, i.rmd, rfl, rfl, ?_, ?_, ?_⟩
  · show |i.r / i.sg| = |i.z - i.xm| / i.sg
    rw [abs_div, abs_of_pos hsgpos, QArgs.r, one_mul]
  · rw [RAKF1D.run_rmd, RAKF1D.rmdF_fin cfg s i hA hsg hx htp hsgpos]
  · rw [RAKF1D.run_rw, (RAKF1D.rwF_fin cfg s i hA hsg hc hg hx htp hsgpos hcpos hgpos).1]
    congr 1
    unfold QArgs.w rwQ
    split_ifs with h
    · rfl
    · rw [div_mul_div_comm, mul_one]

/-- Witness for C2 at `wCfg`/`wState` with measurement 10 at t = 0. -/
theorem C2_witness :
    (0 < wArgs.sg ∧ 0 < wArgs.c ∧ 0 < wArgs.g)
    ∧ ∃ dt xminus rt : ℚ,
      dt = (if wArgs.tp < 0 then 0 else (wArgs.t - wArgs.tp) / 1000)
      ∧ xminus = wArgs.A * wArgs.x + wArgs.v * dt + wArgs.a * (dt * dt) * (1 / 2)
      ∧ rt = |wArgs.z - xminus| / wArgs.sg
      ∧ ((RAKF1D.run wCfg wState (PyF.fin wArgs.z) (PyF.fin wArgs.t) (PyF.fin wArgs.v) (PyF.fin wArgs.a)).1).residual_measurement_dash
          = some (PyF.fin rt)
      ∧ ((RAKF1D.run wCfg wState (PyF.fin wArgs.z) (PyF.fin wArgs.t) (PyF.fin wArgs.v) (PyF.fin wArgs.a)).1).residual_weight
          = some (PyF.fin
              (if rt ≤ wArgs.c then 1 / wArgs.sg
               else wArgs.c / (rt * 2 * wArgs.g * wArgs.sg))) := by
  exact ⟨⟨by norm_num [wArgs], by norm_num [wArgs], by norm_num [wArgs]⟩,
    C2_residual_weight wCfg wState wArgs rfl rfl rfl rfl rfl rfl
      (by norm_num [wArgs]) (by norm_num [wArgs]) (by norm_num [wArgs])⟩

/-- C3: δ = (x̂ − x⁻)/P⁻ is signed (no absolute value), α follows the
claimed three-way branch on δ, and at the exact boundaries δ = c₀ and
(for c₀ ≤ c) δ = c the third branch α = δ·γ applies. -/
theorem C3_adaptive_factor (cfg : Rakf1DCfg) (s : Rakf1DState) (i : QArgs)
    (hA : cfg.system_model = PyF.fin i.A)
    (hQ : cfg.system_model_error = PyF.fin i.mq)
    (hc : cfg.residual_threshold = PyF.fin i.c)
    (hc0 : cfg.adaptive_threshold = PyF.fin i.c0)
    (hg : cfg.gamma = PyF.fin i.g)
    (hx : s.state_model = PyF.fin i.x)
    (hP : s.state_error_variance = PyF.fin i.p)
    (htp : s.time_previous = PyF.fin i.tp)
    (hb : RAKF1D.buffersOk cfg s = true)
    (hc0pos : 0 < i.c0) (hgpos : 0 < i.g) (hpm : i.pm ≠ 0) :
    ∃ dt xminus pminus xh d : ℚ,
      dt = (if i.tp < 0 then 0 else (i.t - i.tp) / 1000)
      ∧ xminus = i.A * i.x + i.v * dt + i.a * (dt * dt) * (1 / 2)
      ∧ pminus = i.A * i.p * i.A + i.mq
      ∧ ((RAKF1D.run cfg s (PyF.fin i.z) (PyF.fin i.t) (PyF.fin i.v) (PyF.fin i.a)).1).state_estimation
          = some (PyF.fin xh)
      ∧ ((RAKF1D.run cfg s (PyF.fin i.z) (PyF.fin i.t) (PyF.fin i.v) (PyF.fin i.a)).1).delta_state_estimate
          = some (PyF.fin d)
      ∧ d = (xh - xminus) / pminus
      ∧ ((RAKF1D.run cfg s (PyF.fin i.z) (PyF.fin i.t) (PyF.fin i.v) (PyF.fin i.a)).1).adaptive_factor
          = some (PyF.fin
              (if d < i.c0 then 1
               else if i.c0 < d ∧ d < i.c then i.c0 / d * i.g else d * i.g))
      ∧ (d = i.c0 →
          ((RAKF1D.run cfg s (PyF.fin i.z) (PyF.fin i.t) (PyF.fin i.v) (PyF.fin i.a)).1).adaptive_factor
            = some (PyF.fin (d * i.g)))
      ∧ (i.c0 ≤ i.c → d = i.c →
          ((RAKF1D.run cfg s (PyF.fin i.z) (PyF.fin i.t) (PyF.fin i.v) (PyF.fin i.a)).1).adaptive_factor
            = some (PyF.fin (d * i.g))) := by
  obtain ⟨e, hse⟩ := RAKF1D.seF_finite cfg s i.x i.z i.v i.a hx hb
  have hdelta := RAKF1D.deltaF_fin cfg s i e hA hQ hx hP htp hse hpm
  have haf := (RAKF1D.afF_fin cfg s i e hA hQ hc hc0 hg hx hP htp hse
    hc0pos hgpos hpm).1
  have hafq : ((RAKF1D.run cfg s (PyF.fin i.z) (PyF.fin i.t) (PyF.fin i.v) (PyF.fin i.a)).1).adaptive_factor
      = some (PyF.fin (afQ i.c0 i.c i.g (i.delta e))) := by
    rw [RAKF1D.run_af, haf]
    rfl
  refine ⟨i.td, i.xm, i.pm, e, i.delta e, rfl, rfl, rfl, ?_, ?_, rfl, hafq, ?_, ?_⟩
  · rw [RAKF1D.run_se, hse]
  · rw [RAKF1D.run_delta, hdelta]
  · intro hd
    rw [hafq]
    congr 1
    unfold afQ
    rw [hd, if_neg (lt_irrefl _), if_neg (fun h => lt_irrefl _ h.1)]
  · intro hcc hd
    rw [hafq]
    congr 1
    unfold afQ
    rw [hd, if_neg (not_lt.mpr hcc), if_neg (fun h => lt_irrefl _ h.2)]

/-- Witness for C3 at `wCfg`/`wState` with measurement 10 at t = 0. -/
theorem C3_witness :
    (RAKF1D.buffersOk wCfg wState = true ∧ 0 < wArgs.c0 ∧ 0 < wArgs.g
      ∧ wArgs.pm ≠ 0)
    ∧ ∃ dt xminus pminus xh d : ℚ,
      dt = (if wArgs.tp < 0 then 0 else (wArgs.t - wArgs.tp) / 1000)
      ∧ xminus = wArgs.A * wArgs.x + wArgs.v * dt + wArgs.a * (dt * dt) * (1 / 2)
      ∧ pminus = wArgs.A * wArgs.p * wArgs.A + wArgs.mq
      ∧ ((RAKF1D.run wCfg wState (PyF.fin wArgs.z) (PyF.fin wArgs.t) (PyF.fin wArgs.v) (PyF.fin wArgs.a)).1).state_estimation
          = some (PyF.fin xh)
      ∧ ((RAKF1D.run wCfg wState (PyF.fin wArgs.z) (PyF.fin wArgs.t) (PyF.fin wArgs.v) (PyF.fin wArgs.a)).1).delta_state_estimate
          = some (PyF.fin d)
      ∧ d = (xh - xminus) / pminus
      ∧ ((RAKF1D.run wCfg wState (PyF.fin wArgs.z) (PyF.fin wArgs.t) (PyF.fin wArgs.v) (PyF.fin wArgs.a)).1).adaptive_factor
          = some (PyF.fin
              (if d < wArgs.c0 then 1
               else if wArgs.c0 < d ∧ d < wArgs.c then wArgs.c0 / d * wArgs.g
               else d * wArgs.g))
      ∧ (d = wArgs.c0 →
          ((RAKF1D.run wCfg wState (PyF.fin wArgs.z) (PyF.fin wArgs.t) (PyF.fin wArgs.v) (PyF.fin wArgs.a)).1).adaptive_factor
            = some (PyF.fin (d * wArgs.g)))
      ∧ (wArgs.c0 ≤ wArgs.c → d = wArgs.c →
          ((RAKF1D.run wCfg wState (PyF.fin wArgs.z) (PyF.fin wArgs.t) (PyF.fin wArgs.v) (PyF.fin wArgs.a)).1).adaptive_factor
            = some (PyF.fin (d * wArgs.g))) := by
  have hb : RAKF1D.buffersOk wCfg wState = true := by
    norm_num [RAKF1D.buffersOk, RAKF1D.finListB, RAKF1D.nonnegListB, wCfg,
      wState, PyF.isFinite, PyF.le]
  exact ⟨⟨hb, by norm_num [wArgs], by norm_num [wArgs],
      by norm_num [wArgs, QArgs.pm, sevpQ]⟩,
    C3_adaptive_factor wCfg wState wArgs rfl rfl rfl rfl rfl rfl rfl rfl hb
      (by norm_num [wArgs]) (by norm_num [wArgs])
      (by norm_num [wArgs, QArgs.pm, sevpQ])⟩

/-- C1 (amended): one step of `run` computes, in exact arithmetic: Δt = 0
when `t_prev < 0` (the −1 sentinel or any previously recorded negative
timestamp) and (t − t_prev)/1000 otherwise; x⁻ = A·x + v·Δt + ½·a·Δt²;
P⁻ = A·P·A + Q; r = z − x⁻; K = (P⁻/α)/((P⁻/α) + 1/w); the new state is
x⁻ + K·r with variance (1 − K)·P⁻, which is also the returned value; and
`t_prev` is set to t. -/
theorem C1_run_recursion (cfg : Rakf1DCfg) (s : Rakf1DState) (i : QArgs)
    (hA : cfg.system_model = PyF.fin i.A)
    (hQ : cfg.system_model_error = PyF.fin i.mq)
    (hsg : cfg.measurement_standard_deviation = PyF.fin i.sg)
    (hc : cfg.residual_threshold = PyF.fin i.c)
    (hc0 : cfg.adaptive_threshold = PyF.fin i.c0)
    (hg : cfg.gamma = PyF.fin i.g)
    (hx : s.state_model = PyF.fin i.x)
    (hP : s.state_error_variance = PyF.fin i.p)
    (htp : s.time_previous = PyF.fin i.tp)
    (hb : RAKF1D.buffersOk cfg s = true)
    (hsgpos : 0 < i.sg) (hcpos : 0 < i.c) (hc0pos : 0 < i.c0)
    (hgpos : 0 < i.g) (hpm : 0 < i.pm) :
    ∃ dt xminus pminus rr xh w alpha kk : ℚ,
      dt = (if i.tp < 0 then 0 else (i.t - i.tp) / 1000)
      ∧ xminus = i.A * i.x + i.v * dt + 1 / 2 * (i.a * (dt * dt))
      ∧ pminus = i.A * i.p * i.A + i.mq
      ∧ rr = i.z - xminus
      ∧ kk = (pminus / alpha) / (pminus / alpha + 1 / w)
      ∧ ((RAKF1D.run cfg s (PyF.fin i.z) (PyF.fin i.t) (PyF.fin i.v) (PyF.fin i.a)).1).state_model_prediction
          = some (PyF.fin xminus)
      ∧ ((RAKF1D.run cfg s (PyF.fin i.z) (PyF.fin i.t) (PyF.fin i.v) (PyF.fin i.a)).1).state_error_variance_prediction
          = some (PyF.fin pminus)
      ∧ ((RAKF1D.run cfg s (PyF.fin i.z) (PyF.fin i.t) (PyF.fin i.v) (PyF.fin i.a)).1).residual_measurement
          = some (PyF.fin rr)
      ∧ ((RAKF1D.run cfg s (PyF.fin i.z) (PyF.fin i.t) (PyF.fin i.v) (PyF.fin i.a)).1).state_estimation
          = some (PyF.fin xh)
      ∧ ((RAKF1D.run cfg s (PyF.fin i.z) (PyF.fin i.t) (PyF.fin i.v) (PyF.fin i.a)).1).residual_weight
          = some (PyF.fin w)
      ∧ ((RAKF1D.run cfg s (PyF.fin i.z) (PyF.fin i.t) (PyF.fin i.v) (PyF.fin i.a)).1).adaptive_factor
          = some (PyF.fin alpha)
      ∧ ((RAKF1D.run cfg s (PyF.fin i.z) (PyF.fin i.t) (PyF.fin i.v) (PyF.fin i.a)).1).gain
          = some (PyF.fin kk)
      ∧ ((RAKF1D.run cfg s (PyF.fin i.z) (PyF.fin i.t) (PyF.fin i.v) (PyF.fin i.a)).1).state_model
          = PyF.fin (xminus + kk * rr)
      ∧ ((RAKF1D.run cfg s (PyF.fin i.z) (PyF.fin i.t) (PyF.fin i.v) (PyF.fin i.a)).1).state_error_variance
          = PyF.fin ((1 - kk) * pminus)
      ∧ (RAKF1D.run cfg s (PyF.fin i.z) (PyF.fin i.t) (PyF.fin i.v) (PyF.fin i.a)).2
          = PyF.fin (xminus + kk * rr)
      ∧ ((RAKF1D.run cfg s (PyF.fin i.z) (PyF.fin i.t) (PyF.fin i.v) (PyF.fin i.a)).1).time_previous
          = PyF.fin i.t := by
  obtain ⟨e, hse, htprev, hsmp, hsevp, hrm, hrmd, hrw, hdelta, haf, hgain,
    hsm, hsev, hret⟩ := RAKF1D.run_finite_eval cfg s i hA hQ hsg hc hc0 hg hx
      hP htp hb hsgpos hcpos hc0pos hgpos hpm
  refine ⟨i.td, i.xm, i.pm, i.r, e, i.w, i.alpha e, i.k e,
    rfl, ?_, rfl, ?_, ?_, hsmp, hsevp, hrm, hse, hrw, haf, hgain, hsm, ?_,
    hret, htprev⟩
  · show smpQ i.A i.x i.v i.a i.td = _
    unfold smpQ
    ring
  · show i.z - 1 * i.xm = i.z - i.xm
    ring
  · show gainQ (i.alpha e) i.w i.pm = _
    unfold gainQ
    ring
  · rw [hsev]
    congr 1
    show (1 - i.k e * 1) * i.pm = (1 - i.k e) * i.pm
    ring

/-- Witness for the amended C1 at `wCfg`/`wState` with measurement 10 at
t = 0. -/
theorem C1_witness :
    (RAKF1D.buffersOk wCfg wState = true ∧ 0 < wArgs.sg ∧ 0 < wArgs.c
      ∧ 0 < wArgs.c0 ∧ 0 < wArgs.g ∧ 0 < wArgs.pm)
    ∧ ∃ dt xminus pminus rr xh w alpha kk : ℚ,
      dt = (if wArgs.tp < 0 then 0 else (wArgs.t - wArgs.tp) / 1000)
      ∧ xminus = wArgs.A * wArgs.x + wArgs.v * dt + 1 / 2 * (wArgs.a * (dt * dt))
      ∧ pminus = wArgs.A * wArgs.p * wArgs.A + wArgs.mq
      ∧ rr = wArgs.z - xminus
      ∧ kk = (pminus / alpha) / (pminus / alpha + 1 / w)
      ∧ ((RAKF1D.run wCfg wState (PyF.fin wArgs.z) (PyF.fin wArgs.t) (PyF.fin wArgs.v) (PyF.fin wArgs.a)).1).state_model_prediction
          = some (PyF.fin xminus)
      ∧ ((RAKF1D.run wCfg wState (PyF.fin wArgs.z) (PyF.fin wArgs.t) (PyF.fin wArgs.v) (PyF.fin wArgs.a)).1).state_error_variance_prediction
          = some (PyF.fin pminus)
      ∧ ((RAKF1D.run wCfg wState (PyF.fin wArgs.z) (PyF.fin wArgs.t) (PyF.fin wArgs.v) (PyF.fin wArgs.a)).1).residual_measurement
          = some (PyF.fin rr)
      ∧ ((RAKF1D.run wCfg wState (PyF.fin wArgs.z) (PyF.fin wArgs.t) (PyF.fin wArgs.v) (PyF.fin wArgs.a)).1).state_estimation
          = some (PyF.fin xh)
      ∧ ((RAKF1D.run wCfg wState (PyF.fin wArgs.z) (PyF.fin wArgs.t) (PyF.fin wArgs.v) (PyF.fin wArgs.a)).1).residual_weight
          = some (PyF.fin w)
      ∧ ((RAKF1D.run wCfg wState (PyF.fin wArgs.z) (PyF.fin wArgs.t) (PyF.fin wArgs.v) (PyF.fin wArgs.a)).1).adaptive_factor
          = some (PyF.fin alpha)
      ∧ ((RAKF1D.run wCfg wState (PyF.fin wArgs.z) (PyF.fin wArgs.t) (PyF.fin wArgs.v) (PyF.fin wArgs.a)).1).gain
          = some (PyF.fin kk)
      ∧ ((RAKF1D.run wCfg wState (PyF.fin wArgs.z) (PyF.fin wArgs.t) (PyF.fin wArgs.v) (PyF.fin wArgs.a)).1).state_model
          = PyF.fin (xminus + kk * rr)
      ∧ ((RAKF1D.run wCfg wState (PyF.fin wArgs.z) (PyF.fin wArgs.t) (PyF.fin wArgs.v) (PyF.fin wArgs.a)).1).state_error_variance
          = PyF.fin ((1 - kk) * pminus)
      ∧ (RAKF1D.run wCfg wState (PyF.fin wArgs.z) (PyF.fin wArgs.t) (PyF.fin wArgs.v) (PyF.fin wArgs.a)).2
          = PyF.fin (xminus + kk * rr)
      ∧ ((RAKF1D.run wCfg wState (PyF.fin wArgs.z) (PyF.fin wArgs.t) (PyF.fin wArgs.v) (PyF.fin wArgs.a)).1).time_previous
          = PyF.fin wArgs.t := by
  have hb : RAKF1D.buffersOk wCfg wState = true := by
    norm_num [RAKF1D.buffersOk, RAKF1D.finListB, RAKF1D.nonnegListB, wCfg,
      wState, PyF.isFinite, PyF.le]
  exact ⟨⟨hb, by norm_num [wArgs], by norm_num [wArgs], by norm_num [wArgs],
      by norm_num [wArgs], by norm_num [wArgs, QArgs.pm, sevpQ]⟩,
    C1_run_recursion wCfg wState wArgs rfl rfl rfl rfl rfl rfl rfl rfl rfl hb
      (by norm_num [wArgs]) (by norm_num [wArgs]) (by norm_num [wArgs])
      (by norm_num [wArgs]) (by norm_num [wArgs, QArgs.pm, sevpQ])⟩

/-- C1 counterexample (to the claim's timing clause as stated): after a
successful step at timestamp −5, `t_prev = −5`, which is not the "never"
sentinel (−1); on the next call at t = 0 with v = 1000, the claim's rule
Δt = (t − t_prev)/1000 = 1/200 would give x⁻ = 1/3 + 1000·(1/200) = 16/3,
but the code takes the `t_prev < 0` branch, computes Δt = 0 and x⁻ = 1/3. -/
theorem C1_counterexample :
    ((RAKF1D.run wCfg wState (PyF.fin 0) (PyF.fin (-5)) (PyF.fin 0) (PyF.fin 0)).1).time_previous
        = PyF.fin (-5)
      ∧ (PyF.fin (-5) : PyF) ≠ PyF.fin (-1)
      ∧ ((RAKF1D.run wCfg wState (PyF.fin 0) (PyF.fin (-5)) (PyF.fin 0) (PyF.fin 0)).1).state_model
        = PyF.fin (1 / 3)
      ∧ ((RAKF1D.run wCfg (RAKF1D.run wCfg wState (PyF.fin 0) (PyF.fin (-5)) (PyF.fin 0) (PyF.fin 0)).1
          (PyF.fin 0) (PyF.fin 0) (PyF.fin 1000) (PyF.fin 0)).1).state_model_prediction
        = some (PyF.fin (1 / 3))
      ∧ (1 : ℚ) * (1 / 3) + 1000 * ((0 - (-5)) / 1000)
          + 1 / 2 * (0 * (((0 - (-5)) / 1000) * ((0 - (-5)) / 1000))) = 16 / 3
      ∧ ((1 : ℚ) / 3) ≠ 16 / 3 := by
  refine ⟨rfl, by norm_num, ?_, ?_, by norm_num, by norm_num⟩
  · norm_num [RAKF1D.run, RAKF1D.timedeltaOf, RAKF1D.smpOf, RAKF1D.sevpOf,
      RAKF1D.residualWeightOf, RAKF1D.adaptiveFactorOf, RAKF1D.imuBufOf,
      RAKF1D.stateEstimationOf, RAKF1D.finListB, RAKF1D.nonnegListB, rollSet,
      wlsPosOnlyQ, wCfg, wState, PyF.lt, PyF.le, PyF.abs, PyF.toQ,
      PyF.isFinite, PyF.fin_div_fin]
  · norm_num [RAKF1D.run, RAKF1D.timedeltaOf, RAKF1D.smpOf, RAKF1D.sevpOf,
      RAKF1D.residualWeightOf, RAKF1D.adaptiveFactorOf, RAKF1D.imuBufOf,
      RAKF1D.stateEstimationOf, RAKF1D.finListB, RAKF1D.nonnegListB, rollSet,
      wlsPosOnlyQ, wCfg, wState, PyF.lt, PyF.le, PyF.abs, PyF.toQ,
      PyF.isFinite, PyF.fin_div_fin]

/-- C8 (amended): with `residual_threshold = +inf` the robust-weighting
branch is indeed never active (`w = 1/σ` on every step), but the adaptive
branch still is: `α = 1` is guaranteed only on steps whose normalized
innovation δ stays below `c₀`. -/
theorem C8_infinite_threshold (cfg : Rakf1DCfg) (s : Rakf1DState) (i : QArgs)
    (hinf : cfg.residual_threshold = PyF.pinf)
    (hA : cfg.system_model = PyF.fin i.A)
    (hsg : cfg.measurement_standard_deviation = PyF.fin i.sg)
    (hc0 : cfg.adaptive_threshold = PyF.fin i.c0)
    (hx : s.state_model = PyF.fin i.x)
    (htp : s.time_previous = PyF.fin i.tp)
    (hsgpos : 0 < i.sg) :
    ((RAKF1D.run cfg s (PyF.fin i.z) (PyF.fin i.t) (PyF.fin i.v) (PyF.fin i.a)).1).residual_weight
        = some (PyF.fin (1 / i.sg))
      ∧ ∀ d : ℚ,
        ((RAKF1D.run cfg s (PyF.fin i.z) (PyF.fin i.t) (PyF.fin i.v) (PyF.fin i.a)).1).delta_state_estimate
            = some (PyF.fin d) →
          d < i.c0 →
          ((RAKF1D.run cfg s (PyF.fin i.z) (PyF.fin i.t) (PyF.fin i.v) (PyF.fin i.a)).1).adaptive_factor
            = some (PyF.fin 1) := by
  constructor
  · rw [RAKF1D.run_rw, RAKF1D.rwF,
      RAKF1D.rmdF_fin cfg s i hA hsg hx htp hsgpos, RAKF1D.residualWeightOf,
      hinf, if_pos (PyF.le_fin_pinf i.rmd), hsg,
      PyF.fin_div_fin _ _ hsgpos.ne.symm]
  · intro d hd hdlt
    have hdf : RAKF1D.deltaF cfg s (PyF.fin i.z) (PyF.fin i.t) (PyF.fin i.v)
        (PyF.fin i.a) = PyF.fin d := by
      have := (RAKF1D.run_delta cfg s (PyF.fin i.z) (PyF.fin i.t)
        (PyF.fin i.v) (PyF.fin i.a)).symm.trans hd
      exact Option.some.inj this
    rw [RAKF1D.run_af, RAKF1D.afF, hdf, RAKF1D.adaptiveFactorOf, hc0,
      PyF.lt_fin_fin_true hdlt, if_pos rfl]

/-- Witness for the amended C8 at `iCfg`/`wState`. -/
theorem C8_witness :
    (iCfg.residual_threshold = PyF.pinf ∧ 0 < i8.sg)
    ∧ (((RAKF1D.run iCfg wState (PyF.fin i8.z) (PyF.fin i8.t) (PyF.fin i8.v) (PyF.fin i8.a)).1).residual_weight
        = some (PyF.fin (1 / i8.sg))
      ∧ ∀ d : ℚ,
        ((RAKF1D.run iCfg wState (PyF.fin i8.z) (PyF.fin i8.t) (PyF.fin i8.v) (PyF.fin i8.a)).1).delta_state_estimate
            = some (PyF.fin d) →
          d < i8.c0 →
          ((RAKF1D.run iCfg wState (PyF.fin i8.z) (PyF.fin i8.t) (PyF.fin i8.v) (PyF.fin i8.a)).1).adaptive_factor
            = some (PyF.fin 1)) := by
  exact ⟨⟨rfl, by norm_num [i8]⟩,
    C8_infinite_threshold iCfg wState i8 rfl rfl rfl rfl rfl rfl
      (by norm_num [i8])⟩

/-- C8 counterexample: with `residual_threshold = +inf`, a step of
`iCfg` from x = 1, P = 1 with measurement 10 computes w = 1/σ = 1 as the
claim says, but α = (c₀/δ)·γ = (1/2)/(9/2) = 1/9 ≠ 1: the adaptive branch
fires, so the recursion is not the standard Kalman update. -/
theorem C8_counterexample :
    ((RAKF1D.run iCfg wState (PyF.fin 10) (PyF.fin 0) (PyF.fin 0) (PyF.fin 0)).1).residual_weight
        = some (PyF.fin 1)
      ∧ ((RAKF1D.run iCfg wState (PyF.fin 10) (PyF.fin 0) (PyF.fin 0) (PyF.fin 0)).1).adaptive_factor
        = some (PyF.fin (1 / 9))
      ∧ ((1 : ℚ) / 9) ≠ 1 := by
  refine ⟨?_, ?_, by norm_num⟩ <;>
    norm_num [RAKF1D.run, RAKF1D.timedeltaOf, RAKF1D.smpOf, RAKF1D.sevpOf,
      RAKF1D.residualWeightOf, RAKF1D.adaptiveFactorOf, RAKF1D.imuBufOf,
      RAKF1D.stateEstimationOf, RAKF1D.finListB, RAKF1D.nonnegListB, rollSet,
      wlsPosOnlyQ, iCfg, wState, PyF.lt, PyF.le, PyF.abs, PyF.toQ,
      PyF.isFinite, PyF.fin_div_fin]

/-- C4: for an admissible configuration (σ > 0, Q ≥ 0, positive thresholds
and γ), any finite state with P ≥ 0 and finite inputs, every step whose
resulting estimate is finite (the spec's notion of a successful step —
a non-finite result is a `NumericalFailure`) leaves a finite, nonnegative
posterior variance. -/
theorem C4_variance_nonneg (cfg : Rakf1DCfg) (s : Rakf1DState) (i : QArgs)
    (hA : cfg.system_model = PyF.fin i.A)
    (hQ : cfg.system_model_error = PyF.fin i.mq)
    (hsg : cfg.measurement_standard_deviation = PyF.fin i.sg)
    (hc : cfg.residual_threshold = PyF.fin i.c)
    (hc0 : cfg.adaptive_threshold = PyF.fin i.c0)
    (hg : cfg.gamma = PyF.fin i.g)
    (hx : s.state_model = PyF.fin i.x)
    (hP : s.state_error_variance = PyF.fin i.p)
    (htp : s.time_previous = PyF.fin i.tp)
    (hb : RAKF1D.buffersOk cfg s = true)
    (hsgpos : 0 < i.sg) (hcpos : 0 < i.c) (hc0pos : 0 < i.c0)
    (hgpos : 0 < i.g) (hQnn : 0 ≤ i.mq) (hPnn : 0 ≤ i.p)
    (hfin : (((RAKF1D.run cfg s (PyF.fin i.z) (PyF.fin i.t) (PyF.fin i.v) (PyF.fin i.a)).1).state_model).isFinite = true) :
    ∃ pq : ℚ,
      ((RAKF1D.run cfg s (PyF.fin i.z) (PyF.fin i.t) (PyF.fin i.v) (PyF.fin i.a)).1).state_error_variance
          = PyF.fin pq
        ∧ 0 ≤ pq := by
  have hpm_nn : 0 ≤ i.pm := by
    have h1 : 0 ≤ i.A * i.p * i.A := by nlinarith [sq_nonneg i.A]
    unfold QArgs.pm sevpQ
    linarith
  rcases eq_or_lt_of_le hpm_nn with hpm0 | hpmpos
  · -- P⁻ = 0: the δ computation divides by zero.
    obtain ⟨e, hse⟩ := RAKF1D.seF_finite cfg s i.x i.z i.v i.a hx hb
    have hsmp := RAKF1D.smpF_fin cfg s i hA hx htp
    have hsevp0 : RAKF1D.sevpF cfg s = PyF.fin 0 := by
      rw [RAKF1D.sevpF_fin cfg s i hA hQ hP, ← hpm0]
    obtain ⟨hrwe, hwpos⟩ :=
      RAKF1D.rwF_fin cfg s i hA hsg hc hg hx htp hsgpos hcpos hgpos
    rcases lt_trichotomy e i.xm with hlt | heq | hgt
    · -- δ = −inf: first adaptive branch, gain 0, variance 0.
      have hdelta : RAKF1D.deltaF cfg s (PyF.fin i.z) (PyF.fin i.t)
          (PyF.fin i.v) (PyF.fin i.a) = PyF.ninf := by
        rw [RAKF1D.deltaF, hse, hsmp, hsevp0, PyF.fin_sub_fin,
          PyF.fin_div_zero_neg _ (by linarith)]
      have haf : RAKF1D.afF cfg s (PyF.fin i.z) (PyF.fin i.t) (PyF.fin i.v)
          (PyF.fin i.a) = PyF.fin 1 := by
        rw [RAKF1D.afF, hdelta, RAKF1D.adaptiveFactorOf, hc0,
          if_pos (PyF.lt_ninf_fin i.c0)]
      have hden : (1 : ℚ) / 1 * 1 * 0 * 1 + 1 / i.w ≠ 0 := by
        have h2 : (1 : ℚ) / 1 * 1 * 0 * 1 + 1 / i.w = 1 / i.w := by ring
        rw [h2]
        positivity
      have hgain0 : RAKF1D.gainF cfg s (PyF.fin i.z) (PyF.fin i.t)
          (PyF.fin i.v) (PyF.fin i.a) = PyF.fin 0 := by
        rw [RAKF1D.gainF, haf, hsevp0, hrwe,
          PyF.fin_div_fin _ _ (by norm_num : (1 : ℚ) ≠ 0),
          PyF.fin_div_fin _ _ hwpos.ne.symm, PyF.fin_mul_fin, PyF.fin_mul_fin,
          PyF.fin_mul_fin, PyF.fin_mul_fin, PyF.fin_mul_fin, PyF.fin_add_fin,
          PyF.fin_div_fin _ _ hden]
        norm_num
      refine ⟨(1 - 0 * 1) * 0, ?_, by norm_num⟩
      rw [RAKF1D.run_sev, RAKF1D.sevF, hgain0, hsevp0, PyF.fin_mul_fin,
        PyF.fin_sub_fin, PyF.fin_mul_fin]
    · -- δ = nan: the resulting estimate is nan, contradicting success.
      have hdelta : RAKF1D.deltaF cfg s (PyF.fin i.z) (PyF.fin i.t)
          (PyF.fin i.v) (PyF.fin i.a) = PyF.nan := by
        rw [RAKF1D.deltaF, hse, hsmp, hsevp0, PyF.fin_sub_fin,
          show e - i.xm = 0 by rw [heq]; ring, PyF.zero_div_zero]
      have haf : RAKF1D.afF cfg s (PyF.fin i.z) (PyF.fin i.t) (PyF.fin i.v)
          (PyF.fin i.a) = PyF.nan := by
        rw [RAKF1D.afF, hdelta, RAKF1D.adaptiveFactorOf]
        rw [if_neg (by rw [PyF.nan_lt]; simp),
          if_neg (by rw [PyF.lt_nan]; simp), PyF.nan_mul]
      have hgain : RAKF1D.gainF cfg s (PyF.fin i.z) (PyF.fin i.t)
          (PyF.fin i.v) (PyF.fin i.a) = PyF.nan := by
        simp only [RAKF1D.gainF, haf, PyF.div_nan, PyF.nan_mul, PyF.nan_add,
          PyF.nan_div]
      have hsm : RAKF1D.smF cfg s (PyF.fin i.z) (PyF.fin i.t) (PyF.fin i.v)
          (PyF.fin i.a) = PyF.nan := by
        rw [RAKF1D.smF, hgain, PyF.nan_mul, PyF.add_nan]
      rw [RAKF1D.run_sm, hsm] at hfin
      simp [PyF.isFinite] at hfin
    · -- δ = +inf: third adaptive branch gives α = +inf, gain 0, variance 0.
      have hdelta : RAKF1D.deltaF cfg s (PyF.fin i.z) (PyF.fin i.t)
          (PyF.fin i.v) (PyF.fin i.a) = PyF.pinf := by
        rw [RAKF1D.deltaF, hse, hsmp, hsevp0, PyF.fin_sub_fin,
          PyF.fin_div_zero_pos _ (by linarith)]
      have haf : RAKF1D.afF cfg s (PyF.fin i.z) (PyF.fin i.t) (PyF.fin i.v)
          (PyF.fin i.a) = PyF.pinf := by
        rw [RAKF1D.afF, hdelta, RAKF1D.adaptiveFactorOf, hc0, hc, hg,
          if_neg (by rw [PyF.lt_pinf_fin]; simp),
          if_neg (by rw [PyF.lt_fin_pinf, PyF.lt_pinf_fin, Bool.true_and]; simp),
          PyF.pinf_mul_fin_pos _ hgpos]
      have hden : (0 : ℚ) * 1 * 0 * 1 + 1 / i.w ≠ 0 := by
        have h2 : (0 : ℚ) * 1 * 0 * 1 + 1 / i.w = 1 / i.w := by ring
        rw [h2]
        positivity
      have hgain0 : RAKF1D.gainF cfg s (PyF.fin i.z) (PyF.fin i.t)
          (PyF.fin i.v) (PyF.fin i.a) = PyF.fin 0 := by
        rw [RAKF1D.gainF, haf, hsevp0, hrwe, PyF.fin_div_pinf,
          PyF.fin_div_fin _ _ hwpos.ne.symm, PyF.fin_mul_fin, PyF.fin_mul_fin,
          PyF.fin_mul_fin, PyF.fin_mul_fin, PyF.fin_mul_fin, PyF.fin_add_fin,
          PyF.fin_div_fin _ _ hden]
        norm_num
      refine ⟨(1 - 0 * 1) * 0, ?_, by norm_num⟩
      rw [RAKF1D.run_sev, RAKF1D.sevF, hgain0, hsevp0, PyF.fin_mul_fin,
        PyF.fin_sub_fin, PyF.fin_mul_fin]
  · -- P⁻ > 0: the regular finite recursion with K ∈ [0, 1).
    obtain ⟨e, hse, htprev, hsmp, hsevp, hrm, hrmd, hrw, hdelta, haf, hgain,
      hsm, hsev, hret⟩ := RAKF1D.run_finite_eval cfg s i hA hQ hsg hc hc0 hg
        hx hP htp hb hsgpos hcpos hc0pos hgpos hpmpos
    have hαpos : 0 < i.alpha e := RAKF1D.afQ_pos i.c0 i.c i.g (i.delta e) hc0pos hgpos
    have hwpos : 0 < i.w := RAKF1D.rwQ_pos i.c i.g i.sg i.rmd hcpos hgpos hsgpos
    obtain ⟨hk0, hk1⟩ := RAKF1D.gainQ_bounds (i.alpha e) i.w i.pm hαpos hwpos hpm_nn
    refine ⟨i.pn e, hsev, ?_⟩
    have h1k : 0 ≤ 1 - i.k e * 1 := by
      have : i.k e * 1 = i.k e := mul_one _
      rw [this]
      have : i.k e < 1 := hk1
      linarith
    exact mul_nonneg h1k hpm_nn

/-- Witness for C4 at `wCfg`/`wState` with measurement 10 at t = 0 (the
resulting estimate is the finite 47/29). -/
theorem C4_witness :
    (RAKF1D.buffersOk wCfg wState = true ∧ 0 ≤ wArgs.mq ∧ 0 ≤ wArgs.p
      ∧ (((RAKF1D.run wCfg wState (PyF.fin wArgs.z) (PyF.fin wArgs.t) (PyF.fin wArgs.v) (PyF.fin wArgs.a)).1).state_model).isFinite = true)
    ∧ ∃ pq : ℚ,
      ((RAKF1D.run wCfg wState (PyF.fin wArgs.z) (PyF.fin wArgs.t) (PyF.fin wArgs.v) (PyF.fin wArgs.a)).1).state_error_variance
          = PyF.fin pq
        ∧ 0 ≤ pq := by
  have hb : RAKF1D.buffersOk wCfg wState = true := by
    norm_num [RAKF1D.buffersOk, RAKF1D.finListB, RAKF1D.nonnegListB, wCfg,
      wState, PyF.isFinite, PyF.le]
  have hfin : (((RAKF1D.run wCfg wState (PyF.fin wArgs.z) (PyF.fin wArgs.t) (PyF.fin wArgs.v) (PyF.fin wArgs.a)).1).state_model).isFinite = true := by
    norm_num [RAKF1D.run, RAKF1D.timedeltaOf, RAKF1D.smpOf, RAKF1D.sevpOf,
      RAKF1D.residualWeightOf, RAKF1D.adaptiveFactorOf, RAKF1D.imuBufOf,
      RAKF1D.stateEstimationOf, RAKF1D.finListB, RAKF1D.nonnegListB, rollSet,
      wlsPosOnlyQ, wCfg, wState, wArgs, PyF.lt, PyF.le, PyF.abs, PyF.toQ,
      PyF.isFinite, PyF.fin_div_fin]
  exact ⟨⟨hb, by norm_num [wArgs], by norm_num [wArgs], hfin⟩,
    C4_variance_nonneg wCfg wState wArgs rfl rfl rfl rfl rfl rfl rfl rfl rfl
      hb (by norm_num [wArgs]) (by norm_num [wArgs]) (by norm_num [wArgs])
      (by norm_num [wArgs]) (by norm_num [wArgs]) (by norm_num [wArgs]) hfin⟩

namespace RAKF1D

theorem run_dict_congr (cfg : Rakf1DCfg) (s1 s2 : Rakf1DState)
    (h : state_to_dict s1 = state_to_dict s2) (z t v a : PyF) :
    run cfg s1 z t v a = run cfg s2 z t v a := by
  have h1 : s1.state_model = s2.state_model := congrArg StateDict.x h
  have h2 : s1.state_error_variance = s2.state_error_variance :=
    congrArg StateDict.p h
  have h3 : s1.time_previous = s2.time_previous := congrArg StateDict.t_prev h
  have h4 : s1.measurement_buffer = s2.measurement_buffer :=
    congrArg StateDict.meas h
  have h5 : s1.position_buffer = s2.position_buffer := congrArg StateDict.pos h
  have h6 : s1.residual_weight_buffer = s2.residual_weight_buffer :=
    congrArg StateDict.w h
  have h7 : s1.velocity_buffer = s2.velocity_buffer := congrArg StateDict.vel h
  have h8 : s1.acceleration_buffer = s2.acceleration_buffer :=
    congrArg StateDict.acc h
  unfold run
  rw [h1, h2, h3, h4, h5, h6, h7, h8]

theorem runSeq_dict_congr (cfg : Rakf1DCfg) (s1 s2 : Rakf1DState)
    (h : state_to_dict s1 = state_to_dict s2) (ms : List StepInput) :
    (runSeq cfg s1 ms).1 = (runSeq cfg s2 ms).1
      ∧ state_to_dict (runSeq cfg s1 ms).2 = state_to_dict (runSeq cfg s2 ms).2 := by
  induction ms generalizing s1 s2 with
  | nil => exact ⟨rfl, h⟩
  | cons m ms ih =>
    have hr := run_dict_congr cfg s1 s2 h m.1 m.2.1 m.2.2.1 m.2.2.2
    simp [runSeq, hr]

end RAKF1D

/-- C7: snapshot/restore is a behavioral round-trip.  (The bodies of
`RAKF1D.state_to_dict` and `RAKF1D.update_state` are not present in the
repository sources — only their call sites in `RAKFLocalization` are — so
both are modelled from the spec, see their definitions.)  Restoring the
snapshot of a state whose buffers match the configured window succeeds,
and any subsequent step sequence produces the same outputs and the same
final snapshot as running on the original state; restoring a record whose
buffer shapes do not match the window fails. -/
theorem C7_snapshot_roundtrip (cfg : Rakf1DCfg) (s : Rakf1DState)
    (ms : List RAKF1D.StepInput)
    (hshape : RAKF1D.dictShapeOk cfg (RAKF1D.state_to_dict s) = true) :
    (∃ s2, RAKF1D.update_state cfg (RAKF1D.state_to_dict s) = some s2
      ∧ (RAKF1D.runSeq cfg s2 ms).1 = (RAKF1D.runSeq cfg s ms).1
      ∧ RAKF1D.state_to_dict (RAKF1D.runSeq cfg s2 ms).2
          = RAKF1D.state_to_dict (RAKF1D.runSeq cfg s ms).2)
    ∧ ∀ d : RAKF1D.StateDict,
        RAKF1D.dictShapeOk cfg d = false →
          RAKF1D.update_state cfg d = none := by
  constructor
  · refine ⟨RAKF1D.restoreOf (RAKF1D.state_to_dict s), ?_, ?_, ?_⟩
    · rw [RAKF1D.update_state, if_pos hshape]
    · exact (RAKF1D.runSeq_dict_congr cfg
        (RAKF1D.restoreOf (RAKF1D.state_to_dict s)) s rfl ms).1
    · exact (RAKF1D.runSeq_dict_congr cfg
        (RAKF1D.restoreOf (RAKF1D.state_to_dict s)) s rfl ms).2
  · intro d hd
    rw [RAKF1D.update_state, if_neg (by simp [hd])]

/-- Witness for C7: restore the snapshot of `wState` under `wCfg` and run
one further step. -/
theorem C7_witness :
    RAKF1D.dictShapeOk wCfg (RAKF1D.state_to_dict wState) = true
    ∧ ((∃ s2, RAKF1D.update_state wCfg (RAKF1D.state_to_dict wState) = some s2
      ∧ (RAKF1D.runSeq wCfg s2 [(PyF.fin 2, PyF.fin 1000, PyF.fin 0, PyF.fin 0)]).1
          = (RAKF1D.runSeq wCfg wState [(PyF.fin 2, PyF.fin 1000, PyF.fin 0, PyF.fin 0)]).1
      ∧ RAKF1D.state_to_dict (RAKF1D.runSeq wCfg s2 [(PyF.fin 2, PyF.fin 1000, PyF.fin 0, PyF.fin 0)]).2
          = RAKF1D.state_to_dict (RAKF1D.runSeq wCfg wState [(PyF.fin 2, PyF.fin 1000, PyF.fin 0, PyF.fin 0)]).2)
    ∧ ∀ d : RAKF1D.StateDict,
        RAKF1D.dictShapeOk wCfg d = false →
          RAKF1D.update_state wCfg d = none) := by
  exact ⟨rfl, C7_snapshot_roundtrip wCfg wState
    [(PyF.fin 2, PyF.fin 1000, PyF.fin 0, PyF.fin 0)] rfl⟩
